import Mathlib

/-!
Verification of the ChatTTT MCP server core: the tic-tac-toe search engine
(`agent.py`), the tool registry (`mcp_tools.py`) and the HTTP protocol
gateway (`server_http.py`), shallowly embedded in Lean.

Python mutable lists become Lean `List`s; the in-place place-and-revert
mutation of `_minimax` is modelled by threading the board through the
recursion (`minimaxS` returns the score together with the board as it is
left on return).  Python's unbounded recursion is given explicit fuel,
always called with the board length, which bounds the recursion depth
(each recursive call fills one empty cell).  `float('-inf')`/`float('inf')`
sentinels become the integers -2 and 2: all minimax scores lie in
{-1, 0, 1}, so the comparisons behave identically.
-/

namespace ChatTTT

/-- A mark on the board: the Python strings 'X' and 'O'. -/
inductive Player where
  | X : Player
  | O : Player
deriving DecidableEq, Repr

/-- A cell of the Python board list: `None`, 'X' or 'O'. -/
abbrev Cell := Option Player

/-- The Python board: a list of cells (length 9 in every intended use). -/
abbrev Board := List Cell

/-- `opponent = 'X' if ai_player == 'O' else 'O'` (agent.py line 60). -/
def opponent (p : Player) : Player :=
  match p with
  | .X => .O
  | .O => .X

/-- The eight `winning_combinations` of `_check_winner` (agent.py 82-86),
in source order: rows, columns, diagonals. -/
def winning_combinations : List (Nat × Nat × Nat) :=
  [(0, 1, 2), (3, 4, 5), (6, 7, 8),
   (0, 3, 6), (1, 4, 7), (2, 5, 8),
   (0, 4, 8), (2, 4, 6)]

/-- One combo test of `_check_winner` (agent.py 89-91):
`board[a] is not None and board[a] == board[b] == board[c]`,
returning `board[a]` on success. -/
def triple_winner (board : Board) (a b c : Nat) : Option Player :=
  match board.getD a none with
  | none => none
  | some p =>
    match board.getD b none, board.getD c none with
    | some q, some r => if q = p then (if r = p then some p else none) else none
    | _, _ => none

/-- The scan of `_check_winner` over the combination list: the first
combo whose three cells carry the same mark wins (agent.py 88-93). -/
def check_winner_aux (board : Board) : List (Nat × Nat × Nat) → Option Player
  | [] => none
  | (a, b, c) :: rest =>
    match triple_winner board a b c with
    | some p => some p
    | none => check_winner_aux board rest

/-- `_check_winner` (agent.py 81-93). -/
def check_winner (board : Board) : Option Player :=
  check_winner_aux board winning_combinations

/-- `valid_moves = [i for i, cell in enumerate(board) if cell is None]`
(agent.py 16/41). -/
def valid_moves (board : Board) : List Nat :=
  (List.range board.length).filter (fun i => (board.getD i none).isNone)

/-- `_minimax` (agent.py 52-79), with the board threaded through the
recursion to model the Python in-place mutate-and-revert on lines 66-68
and 75-77.  `fuel` bounds the recursion depth; every call site passes the
board length, which exceeds the number of empty cells. -/
def minimaxS : Nat → Board → Bool → Player → Int × Board
  | 0, board, _, _ => (0, board)
  | fuel + 1, board, is_maximizing, ai_player =>
    match check_winner board with
    | some w => (if w = ai_player then 1 else -1, board)
    | none =>
      if board.contains none = false then (0, board)
      else
        if is_maximizing then
          (List.range 9).foldl (fun acc i =>
            match acc.2.getD i none with
            | none =>
              let r := minimaxS fuel (acc.2.set i (some ai_player)) false ai_player
              (max r.1 acc.1, r.2.set i none)
            | some _ => acc) (-2, board)
        else
          (List.range 9).foldl (fun acc i =>
            match acc.2.getD i none with
            | none =>
              let r := minimaxS fuel (acc.2.set i (some (opponent ai_player))) true ai_player
              (min r.1 acc.1, r.2.set i none)
            | some _ => acc) (2, board)

/-- The score `best_move` computes for one candidate move (agent.py 23-28):
copy the board, place the mark, run `_minimax` with the opponent to move. -/
def moveScore (board : Board) (player : Player) (move : Nat) : Int :=
  (minimaxS (board.set move (some player)).length
    (board.set move (some player)) false player).1

/-- One iteration of the `best_move` selection loop (agent.py 22-33):
keep the candidate iff its score strictly beats the best so far. -/
def argStep (f : Nat → Int) : Int × Nat → Nat → Int × Nat :=
  fun acc m =>
    let s := f m
    if s > acc.1 then (s, m) else acc

/-- `best_move` (agent.py 12-35), returning the result together with the
input board (which the Python function only reads: the hypothetical moves
are placed on copies).  The unused `winner` keyword argument is kept. -/
def best_moveS (board : Board) (player : Player) (game_over : Bool)
    (winner : Option Player) : Int × Board :=
  if game_over then (-1, board)
  else
    match valid_moves board with
    | [] => (-1, board)
    | first :: rest =>
      let r := (first :: rest).foldl (argStep (moveScore board player)) (-2, first)
      ((r.2 : Int) + 1, board)

/-- The integer returned by `best_move` (agent.py 12-35). -/
def best_move (board : Board) (player : Player) (game_over : Bool)
    (winner : Option Player) : Int :=
  (best_moveS board player game_over winner).1

/-- `random_move` (agent.py 37-44).  `random.choice(valid_moves)` is
modelled by an oracle `pick` selecting an element of the valid-move list;
every value of `pick` yields one possible outcome of the randomness
source, and every element is selected by some `pick`. -/
def random_move (board : Board) (player : Player) (game_over : Bool)
    (winner : Option Player) (pick : Nat) : Int :=
  if game_over then -1
  else
    match valid_moves board with
    | [] => -1
    | first :: rest =>
      (((first :: rest).getD (pick % (first :: rest).length) 0 : Nat) : Int) + 1

/-- `play_move` (agent.py 46-50). -/
def play_move (board : Board) (position : Int) (player : Player) : Int :=
  if position < 1 ∨ position > 9 then -1
  else if (board.getD (position - 1).toNat none).isSome then -1
  else position

/-- The deterministic self-play trace: starting from `board` with `p` to
move, both sides repeatedly choose `best_move` (with `game_over = false`
and no `winner` hint) and apply the returned 1-based position; the trace
lists every board reached, including the start. -/
def playTrace : Nat → Board → Player → List Board
  | 0, board, _ => [board]
  | n + 1, board, p =>
    let mv := best_move board p false none
    if mv = -1 then [board]
    else board :: playTrace n (board.set (mv - 1).toNat (some p)) (opponent p)

/-!
## A base-3 integer refinement of the search engine

Kernel evaluation of `minimaxS` on concrete boards is far too slow for the
full game tree, so the engine is refined to a twin that stores the board
as a natural number whose base-3 digit at position `i` encodes cell `i`
(0 = empty, 1 = X, 2 = O) and the minimax score `s ∈ {-1,0,1}` as the
natural `s + 2` (with 0 and 4 standing for the `-inf`/`inf` sentinels).
`minimaxS_eq_vT` below proves the twin computes exactly the score of
`minimaxS`; all heavy concrete evaluations then run on the twin.
-/

/-- Code of a cell in the base-3 board encoding. -/
def cellCode : Cell → Nat
  | none => 0
  | some .X => 1
  | some .O => 2

/-- Code of a player's mark. -/
def pCode (p : Player) : Nat := cellCode (some p)

/-- The base-3 encoding of a board: digit `i` is `cellCode` of cell `i`. -/
def enc (b : Board) : Nat := b.foldr (fun cell acc => cellCode cell + 3 * acc) 0

/-- Twin of one `triple_winner` test: digits at weights `ka`, `kb`, `kc`
hold the same non-zero code. -/
def tripleN (c ka kb kc : Nat) : Bool :=
  (c / ka % 3 != 0) && (c / ka % 3 == c / kb % 3) && (c / kb % 3 == c / kc % 3)

/-- Twin of `_check_winner`: the code of the first of the 8 combinations
(in source order) whose three digits carry the same non-zero code, else 0. -/
def winnerMark (c : Nat) : Nat :=
  cond (tripleN c 1 3 9) (c / 1 % 3) <|
  cond (tripleN c 27 81 243) (c / 27 % 3) <|
  cond (tripleN c 729 2187 6561) (c / 729 % 3) <|
  cond (tripleN c 1 27 729) (c / 1 % 3) <|
  cond (tripleN c 3 81 2187) (c / 3 % 3) <|
  cond (tripleN c 9 243 6561) (c / 9 % 3) <|
  cond (tripleN c 1 81 6561) (c / 1 % 3) <|
  cond (tripleN c 9 81 729) (c / 9 % 3) 0

/-- Twin of `None not in board`: all 9 digits are non-zero. -/
def fullN (c : Nat) : Bool :=
  (c / 1 % 3 != 0) && (c / 3 % 3 != 0) && (c / 9 % 3 != 0) && (c / 27 % 3 != 0) &&
  (c / 81 % 3 != 0) && (c / 243 % 3 != 0) && (c / 729 % 3 != 0) && (c / 2187 % 3 != 0) &&
  (c / 6561 % 3 != 0)

/-!
## The MCP tool layer (`mcp_tools.py`) and HTTP server (`server_http.py`)

JSON values are modelled by the concrete types the handlers actually use;
a missing dictionary key is an absent `Option` field.  Python exceptions
are `Except String` values carrying `str(e)`; the `try`/`except` wrappers
become explicit `match`es on that `Except`.
-/

/-- The string form of a mark, as the Python code passes `'X'`/`'O'`. -/
def playerStr : Player → String
  | Player.X => "X"
  | Player.O => "O"

/-- A single-quote character, written via its code so the embedding can
spell Python `repr` strings such as `'board'`. -/
def sq : String := String.mk [Char.ofNat 39]

/-- `str(KeyError(k))` : the missing key wrapped in single quotes. -/
def keyErrorText (k : String) : String := sq ++ k ++ sq

/-- `mcp.types.TextContent` as used here: a `type` tag and a text. -/
structure TextContent where
  type : String
  text : String
deriving Repr, DecidableEq

/-- `mcp.types.CallToolResult` as used here. -/
structure CallToolResult where
  content : List TextContent
  isError : Bool := false
deriving Repr, DecidableEq

/-- The argument dictionary of `execute_tool`: each key the handlers read,
absent when the caller did not pass it. -/
structure ToolArguments where
  board : Option Board := none
  player : Option Player := none
  game_over : Option Bool := none
  winner : Option (Option Player) := none
  position : Option Int := none
deriving Repr, DecidableEq

/-- `TicTacToeAgent.new_game` (agent.py 8-10). -/
def new_game : Int := 1

/-- The body of `execute_tool`s `try` block (mcp_tools.py 1016-1044)
together with the four private handlers `_new_game`, `_best_move`,
`_random_move`, `_play_move` (mcp_tools.py 1056-1107): `.error` is a
raised exception (here only `KeyError`, whose `str` is the quoted key),
`.ok` the returned `CallToolResult`.  `pick` is the oracle fed to
`random_move`. -/
def execute_tool_core (pick : Nat) (name : String) (args : ToolArguments) :
    Except String CallToolResult :=
  if name = "new_game" then
    .ok { content := [{ type := "text", text := "New game started: " ++ toString new_game }] }
  else if name = "best_move" then
    match args.board with
    | none => .error (keyErrorText "board")
    | some board =>
      match args.player with
      | none => .error (keyErrorText "player")
      | some player =>
        .ok { content := [{ type := "text", text := "Best move for " ++ playerStr player ++
          ": position " ++ toString (best_move board player (args.game_over.getD false)
            (args.winner.getD none)) }] }
  else if name = "random_move" then
    match args.board with
    | none => .error (keyErrorText "board")
    | some board =>
      match args.player with
      | none => .error (keyErrorText "player")
      | some player =>
        .ok { content := [{ type := "text", text := "Random move for " ++ playerStr player ++
          ": position " ++ toString (random_move board player (args.game_over.getD false)
            (args.winner.getD none) pick) }] }
  else if name = "play_move" then
    match args.board with
    | none => .error (keyErrorText "board")
    | some board =>
      match args.position with
      | none => .error (keyErrorText "position")
      | some position =>
        match args.player with
        | none => .error (keyErrorText "player")
        | some player =>
          let result := play_move board position player
          if result = -1 then
            .ok { content := [{ type := "text", text := "Invalid move: position " ++ toString position ++ " for player " ++ playerStr player }], isError := true }
          else
            .ok { content := [{ type := "text", text := "Move made: player " ++ playerStr player ++ " at position " ++ toString result }] }
  else
    .ok { content := [{ type := "text", text := "Unknown tool: " ++ name }],
          isError := true }

/-- `execute_tool` (mcp_tools.py 1014-1054): the `except Exception` arm
turns any raised exception into an error `CallToolResult`; the function
itself always returns a `CallToolResult`. -/
def execute_tool (pick : Nat) (name : String) (args : ToolArguments) : CallToolResult :=
  match execute_tool_core pick name args with
  | .ok r => r
  | .error e =>
    { content := [{ type := "text", text := "Error executing tool " ++ name ++ ": " ++ e }],
      isError := true }

/-- `MCP_PROTOCOL_VERSION` (server_http.py 33). -/
def MCP_PROTOCOL_VERSION : String := "2025-06-30"

/-- `SUPPORTED_PROTOCOL_VERSIONS` (server_http.py 34). -/
def SUPPORTED_PROTOCOL_VERSIONS : List String :=
  ["2025-06-30", "2025-06-18", "2025-03-26"]

/-- `config.MCP_SERVER_NAME` as read by `_handle_initialize_request`. -/
def MCP_SERVER_NAME : String := "chattt-ai"

/-- `config.MCP_SERVER_VERSION` as read by `_handle_initialize_request`. -/
def MCP_SERVER_VERSION : String := "1.0.0"

/-- The protocol-version header check of `_handle_mcp_request`
(server_http.py 141-145): the request is rejected (HTTP 400) exactly when
the `mcp-protocol-version` header is present, non-empty (Python truthiness)
and not in the supported list.  `none` is an absent header. -/
def headerVersionRejected : Option String → Bool
  | none => false
  | some v => v != "" && !(SUPPORTED_PROTOCOL_VERSIONS.contains v)

/-- One entry of `MCPHTTPHandler.sessions` (server_http.py 252-258); the
opaque `clientInfo`/`capabilities` JSON objects are carried unchanged as
optional strings, and the uuid key and creation time are left out. -/
structure Session where
  client_info : Option String := none
  capabilities : Option String := none
  protocol_version : String
deriving Repr, DecidableEq

/-- The `params` dictionary of an `initialize` request, fields absent when
not sent. -/
structure InitializeParams where
  protocolVersion : Option String := none
  clientInfo : Option String := none
  capabilities : Option String := none
deriving Repr, DecidableEq

/-- The parts of the `initialize` response result that name the server:
the advertised protocol version and `serverInfo` (server_http.py 261-277). -/
structure InitializeResult where
  protocolVersion : String
  serverName : String
  serverVersion : String
deriving Repr, DecidableEq

/-- `_handle_initialize_request` (server_http.py 245-279): unconditionally creates
a session recording `params.get("protocolVersion", MCP_PROTOCOL_VERSION)`
and answers with the server identity.  The session store is threaded as a
list; no parameter is validated. -/
def handle_initialize_request (sessions : List Session) (params : InitializeParams) :
    List Session × InitializeResult :=
  let protocol_version := params.protocolVersion.getD MCP_PROTOCOL_VERSION
  (sessions ++ [{ client_info := params.clientInfo,
                  capabilities := params.capabilities,
                  protocol_version := protocol_version }],
   { protocolVersion := MCP_PROTOCOL_VERSION,
     serverName := MCP_SERVER_NAME,
     serverVersion := MCP_SERVER_VERSION })

/-- One declared argument of a prompt (mcp_tools.py 150-206). -/
structure PromptArgDecl where
  name : String
  description : String
  required : Bool
deriving Repr, DecidableEq

/-- One prompt of the catalog (mcp_tools.py 150-206). -/
structure Prompt where
  name : String
  description : String
  arguments : List PromptArgDecl
deriving Repr, DecidableEq

/-- `get_prompts` (mcp_tools.py 150-206). -/
def get_prompts : List Prompt :=
  [{ name := "strategy_coach",
     description := "Get personalized tic-tac-toe strategy coaching based on current game state and skill level",
     arguments := [
       { name := "board_state", description := "Current board state as 9-element array", required := false },
       { name := "skill_level", description := "Player skill level: beginner, intermediate, or expert", required := false },
       { name := "focus_area", description := "Specific area to focus on: opening, tactics, endgame, or general", required := false }] },
   { name := "game_analyzer",
     description := "Analyze a completed or ongoing tic-tac-toe game and provide detailed feedback",
     arguments := [
       { name := "move_history", description := "Sequence of moves made in the game", required := true },
       { name := "analysis_depth", description := "Level of analysis: quick, detailed, or comprehensive", required := false }] },
   { name := "learning_path",
     description := "Generate a personalized learning path for improving tic-tac-toe skills",
     arguments := [
       { name := "current_level", description := "Current skill assessment: beginner, intermediate, or expert", required := true },
       { name := "learning_goals", description := "Specific learning objectives or areas of interest", required := false }] }]

/-- The argument dictionary of `get_prompt_content`, one optional field per
key any prompt builder reads. -/
structure PromptArguments where
  board_state : Option Board := none
  skill_level : Option String := none
  focus_area : Option String := none
  move_history : Option (List Int) := none
  analysis_depth : Option String := none
  current_level : Option String := none
  learning_goals : Option String := none
deriving Repr, DecidableEq

/-- A rendered prompt message (mcp_tools.py, the `messages` entries). -/
structure PromptMessage where
  role : String
  content : TextContent
deriving Repr, DecidableEq

/-- The dictionary a prompt builder returns: description and messages. -/
structure PromptContentResult where
  description : String
  messages : List PromptMessage
deriving Repr, DecidableEq

/-- Python `str.title()` on the space-separated words used here: first
letter upper-cased, the rest lower-cased. -/
def strTitle (s : String) : String :=
  String.intercalate " " ((s.splitOn " ").map (fun w =>
    match w.data with
    | [] => ""
    | c :: rest => String.mk (c.toUpper :: rest.map Char.toLower)))

/-- Python `repr` of a board cell: `None`, `'X'` or `'O'`. -/
def pyCellRepr : Cell → String
  | none => "None"
  | some p => sq ++ playerStr p ++ sq

/-- Python `str` of the board list, as an f-string renders it. -/
def pyBoardRepr (b : Board) : String :=
  "[" ++ String.intercalate ", " (b.map pyCellRepr) ++ "]"

/-- `[i+1 for i, cell in enumerate(board_state) if cell is None]`. -/
def emptyPositions (b : Board) : List Nat :=
  ((List.range b.length).filter (fun i => (b.getD i none).isNone)).map (fun i => i + 1)

/-- `[i+1 for i, cell in enumerate(board_state) if cell == 'X']`. -/
def xPositions (b : Board) : List Nat :=
  ((List.range b.length).filter (fun i => b.getD i none == some Player.X)).map (fun i => i + 1)

/-- `[i+1 for i, cell in enumerate(board_state) if cell == 'O']`. -/
def oPositions (b : Board) : List Nat :=
  ((List.range b.length).filter (fun i => b.getD i none == some Player.O)).map (fun i => i + 1)

/-- The `board_context` block of `_strategy_coach_prompt`
(mcp_tools.py 878-890); empty when `board_state` is absent or falsy. -/
def boardContext : Option Board → String
  | none => ""
  | some b =>
    if b = [] then ""
    else
      "Current board state: " ++ pyBoardRepr b ++ "\n" ++
      "Empty positions: " ++ toString (emptyPositions b) ++ "\n" ++
      "X positions: " ++ toString (xPositions b) ++ "\n" ++
      "O positions: " ++ toString (oPositions b) ++ "\n"

/-- The `moves_text` loop of `_game_analyzer_prompt` (mcp_tools.py 930-933),
`i` the running index. -/
def movesText : Nat → List Int → String
  | _, [] => ""
  | i, move :: rest =>
    "Move " ++ toString (i + 1) ++ ": " ++ (if i % 2 = 0 then "X" else "O") ++
      " plays position " ++ toString move ++ "\n" ++ movesText (i + 1) rest

/-- The `prompt_text` f-string of `_strategy_coach_prompt`. -/
def strategyCoachText (skill_level focus_area board_context : String) : String :=
  "You are an expert tic-tac-toe coach providing personalized strategy guidance.\n\nPlayer Information:\n- Skill Level: " ++
    skill_level ++
    "\n- Focus Area: " ++
    focus_area ++
    "\n\n" ++
    board_context ++
    "\n\nInstructions:\n1. Analyze the current position if provided\n2. Provide strategic advice appropriate for the " ++
    skill_level ++
    " level\n3. Focus on " ++
    focus_area ++
    " aspects of play\n4. Explain reasoning behind your recommendations\n5. Suggest specific moves or patterns when relevant\n6. Use encouraging and educational tone\n\nPlease provide comprehensive strategy coaching that helps the player improve their tic-tac-toe skills."

/-- The `prompt_text` f-string of `_game_analyzer_prompt`. -/
def gameAnalyzerText (analysis_depth : String) (move_history : List Int) : String :=
  let moves_text := movesText 0 move_history
  "You are an expert tic-tac-toe analyst providing detailed game review.\n\nGame Information:\n- Analysis Depth: " ++
    analysis_depth ++
    "\n- Total Moves: " ++
    toString move_history.length ++
    "\n\nMove History:\n" ++
    moves_text ++
    "\n\nAnalysis Instructions:\n1. Review each move and evaluate its quality\n2. Identify key turning points in the game\n3. Highlight missed opportunities or mistakes\n4. Explain strategic concepts demonstrated\n5. Provide overall game assessment\n6. Suggest improvements for future games\n\nAnalysis Level: " ++
    analysis_depth ++
    "\n- Quick: Brief overview with key points\n- Detailed: Move-by-move analysis with explanations\n- Comprehensive: In-depth strategic discussion with variations\n\nPlease provide thorough game analysis that helps players learn from this game."

/-- The `prompt_text` f-string of `_learning_path_prompt`. -/
def learningPathText (current_level learning_goals : String) : String :=
  "You are an expert tic-tac-toe instructor creating a personalized learning curriculum.\n\nStudent Information:\n- Current Level: " ++
    current_level ++
    "\n- Learning Goals: " ++
    learning_goals ++
    "\n\nCurriculum Requirements:\n1. Assess appropriate starting point for " ++
    current_level ++
    " player\n2. Create structured learning progression\n3. Include specific skills and concepts to master\n4. Suggest practice exercises and drills\n5. Provide milestones and progress indicators\n6. Adapt to stated learning goals: " ++
    learning_goals ++
    "\n\nLearning Path Structure:\n- Foundational concepts (if needed)\n- Core strategic principles \n- Tactical pattern recognition\n- Advanced concepts (if appropriate)\n- Practice recommendations\n- Assessment methods\n\nPlease create a comprehensive learning path that efficiently guides the student from their current level toward mastery of tic-tac-toe strategy."

/-- `_strategy_coach_prompt` (mcp_tools.py 872-920): never fails. -/
def strategy_coach_prompt (args : PromptArguments) : PromptContentResult :=
  let skill_level := args.skill_level.getD "intermediate"
  let focus_area := args.focus_area.getD "general"
  { description := "Strategy coaching for " ++ skill_level ++ " player focusing on " ++ focus_area,
    messages := [{ role := "user", content := { type := "text", text := strategyCoachText skill_level focus_area (boardContext args.board_state) } }] }

/-- `_game_analyzer_prompt` (mcp_tools.py 922-968): raises `ValueError`
when `move_history` is absent or empty (Python falsiness). -/
def game_analyzer_prompt (args : PromptArguments) : Except String PromptContentResult :=
  let move_history := args.move_history.getD []
  let analysis_depth := args.analysis_depth.getD "detailed"
  if move_history = [] then .error "Move history is required for game analysis"
  else .ok
    { description := strTitle analysis_depth ++ " analysis of " ++
        toString move_history.length ++ "-move game",
      messages := [{ role := "user", content := { type := "text", text := gameAnalyzerText analysis_depth move_history } }] }

/-- `_learning_path_prompt` (mcp_tools.py 970-1012): `current_level`
silently defaults to `"beginner"`; the builder never fails. -/
def learning_path_prompt (args : PromptArguments) : PromptContentResult :=
  let current_level := args.current_level.getD "beginner"
  let learning_goals := args.learning_goals.getD "improve overall play"
  { description := "Personalized learning path for " ++ current_level ++ " player",
    messages := [{ role := "user", content := { type := "text", text := learningPathText current_level learning_goals } }] }

/-- The `try` body of `get_prompt_content` (mcp_tools.py 859-868):
dispatch on the prompt name, unknown names raise `ValueError`. -/
def get_prompt_content_core (name : String) (args : PromptArguments) :
    Except String PromptContentResult :=
  if name = "strategy_coach" then .ok (strategy_coach_prompt args)
  else if name = "game_analyzer" then game_analyzer_prompt args
  else if name = "learning_path" then .ok (learning_path_prompt args)
  else .error ("Unknown prompt: " ++ name)

/-- `get_prompt_content` (mcp_tools.py 857-869): every exception of the
body is re-raised wrapped as `Error getting prompt NAME: ...`. -/
def get_prompt_content (name : String) (args : PromptArguments) :
    Except String PromptContentResult :=
  match get_prompt_content_core name args with
  | .ok r => .ok r
  | .error e => .error ("Error getting prompt " ++ name ++ ": " ++ e)

theorem enc_nil : enc [] = 0 := rfl

theorem enc_cons (c : Cell) (t : Board) : enc (c :: t) = cellCode c + 3 * enc t := rfl

theorem cellCode_lt (x : Cell) : cellCode x < 3 := by
  rcases x with _ | p
  · decide
  · cases p <;> decide

/-- Digit `i` of the encoding is the code of cell `i`. -/
theorem enc_digit (b : Board) : ∀ i : Nat, enc b / 3 ^ i % 3 = cellCode (b.getD i none) := by
  induction b with
  | nil => intro i; simp [enc_nil, Nat.zero_div, cellCode]
  | cons c t ih =>
    intro i
    cases i with
    | zero =>
      simp only [pow_zero, Nat.div_one, enc_cons, List.getD_cons_zero]
      rw [Nat.add_mul_mod_self_left, Nat.mod_eq_of_lt (cellCode_lt c)]
    | succ j =>
      rw [enc_cons, pow_succ, mul_comm (3 ^ j) 3, ← Nat.div_div_eq_div_mul]
      rw [Nat.add_mul_div_left _ _ (by norm_num : (0:Nat) < 3)]
      rw [Nat.div_eq_of_lt (cellCode_lt c), Nat.zero_add]
      simpa using ih j

/-- Encoding of placing mark `p` on an empty cell `i`. -/
theorem enc_set (b : Board) : ∀ (i : Nat) (p : Player), i < b.length →
    b.getD i none = none → enc (b.set i (some p)) = enc b + pCode p * 3 ^ i := by
  induction b with
  | nil => intro i p h; simp at h
  | cons c t ih =>
    intro i p hlen hvac
    cases i with
    | zero =>
      simp only [List.getD_cons_zero] at hvac
      subst hvac
      simp only [List.set_cons_zero, enc_cons, cellCode, pCode, pow_zero]
      ring
    | succ j =>
      simp only [List.getD_cons_succ] at hvac
      simp only [List.length_cons, Nat.succ_lt_succ_iff] at hlen
      simp only [List.set_cons_succ, enc_cons, ih j p hlen hvac, pow_succ]
      ring

/-- Overwriting an empty cell with `None` is the identity. -/
theorem set_none_of_getD_none (b : Board) : ∀ i : Nat, b.getD i none = none →
    b.set i none = b := by
  induction b with
  | nil => intro i _; rfl
  | cons c t ih =>
    intro i h
    cases i with
    | zero => simp only [List.getD_cons_zero] at h; simp [h]
    | succ j => simp only [List.getD_cons_succ] at h; simp [ih j h]

/-- A fold whose step preserves the second component preserves it overall. -/
theorem foldl_snd_const {α β γ : Type} (g : (α × β) → γ → (α × β))
    (hg : ∀ acc x, (g acc x).2 = acc.2) :
    ∀ (l : List γ) (acc : α × β), (l.foldl g acc).2 = acc.2 := by
  intro l
  induction l with
  | nil => intro acc; rfl
  | cons x t ih => intro acc; rw [List.foldl_cons, ih, hg]

/-- `_minimax` reverts every hypothetical mark: the board it returns is
exactly the board it was given (agent.py 66-68 and 75-77). -/
theorem minimaxS_restore : ∀ (fuel : Nat) (b : Board) (im : Bool) (ai : Player),
    (minimaxS fuel b im ai).2 = b := by
  intro fuel
  induction fuel with
  | zero => intro b im ai; rfl
  | succ n ih =>
    intro b im ai
    rw [minimaxS]
    cases hw : check_winner b with
    | some w => rfl
    | none =>
      dsimp only
      split
      · rfl
      · split
        · apply foldl_snd_const
          intro acc i
          cases hcell : acc.2.getD i none with
          | some p => simp [hcell]
          | none =>
            simp only [hcell, ih]
            rw [List.set_set, set_none_of_getD_none _ _ hcell]
        · apply foldl_snd_const
          intro acc i
          cases hcell : acc.2.getD i none with
          | some p => simp [hcell]
          | none =>
            simp only [hcell, ih]
            rw [List.set_set, set_none_of_getD_none _ _ hcell]

theorem enc_d0 (b : Board) : enc b / 1 % 3 = cellCode (b.getD 0 none) := by
  have h := enc_digit b 0; norm_num [List.getD_eq_getElem?_getD] at h ⊢; exact h

theorem enc_d1 (b : Board) : enc b / 3 % 3 = cellCode (b.getD 1 none) := by
  have h := enc_digit b 1; norm_num [List.getD_eq_getElem?_getD] at h ⊢; exact h

theorem enc_d2 (b : Board) : enc b / 9 % 3 = cellCode (b.getD 2 none) := by
  have h := enc_digit b 2; norm_num [List.getD_eq_getElem?_getD] at h ⊢; exact h

theorem enc_d3 (b : Board) : enc b / 27 % 3 = cellCode (b.getD 3 none) := by
  have h := enc_digit b 3; norm_num [List.getD_eq_getElem?_getD] at h ⊢; exact h

theorem enc_d4 (b : Board) : enc b / 81 % 3 = cellCode (b.getD 4 none) := by
  have h := enc_digit b 4; norm_num [List.getD_eq_getElem?_getD] at h ⊢; exact h

theorem enc_d5 (b : Board) : enc b / 243 % 3 = cellCode (b.getD 5 none) := by
  have h := enc_digit b 5; norm_num [List.getD_eq_getElem?_getD] at h ⊢; exact h

theorem enc_d6 (b : Board) : enc b / 729 % 3 = cellCode (b.getD 6 none) := by
  have h := enc_digit b 6; norm_num [List.getD_eq_getElem?_getD] at h ⊢; exact h

theorem enc_d7 (b : Board) : enc b / 2187 % 3 = cellCode (b.getD 7 none) := by
  have h := enc_digit b 7; norm_num [List.getD_eq_getElem?_getD] at h ⊢; exact h

theorem enc_d8 (b : Board) : enc b / 6561 % 3 = cellCode (b.getD 8 none) := by
  have h := enc_digit b 8; norm_num [List.getD_eq_getElem?_getD] at h ⊢; exact h

/-- `tripleN` on the encoding agrees with `triple_winner` on the board. -/
theorem tripleN_spec (b : Board) (i j k : Nat) :
    tripleN (enc b) (3 ^ i) (3 ^ j) (3 ^ k) = (triple_winner b i j k).isSome ∧
    ∀ p : Player, triple_winner b i j k = some p → enc b / 3 ^ i % 3 = pCode p := by
  unfold tripleN triple_winner
  rw [enc_digit b i, enc_digit b j, enc_digit b k]
  rcases hx : b.getD i none with _ | px <;>
  rcases hy : b.getD j none with _ | py <;>
  rcases hz : b.getD k none with _ | pz <;>
  (try cases px) <;> (try cases py) <;> (try cases pz) <;>
  exact ⟨by decide, by decide⟩

/-- The unrolled winner scan of the twin computes the code of
`_check_winner`'s result. -/
theorem winnerMark_enc (b : Board) : winnerMark (enc b) = cellCode (check_winner b) := by
  have s1 := tripleN_spec b 0 1 2
  have s2 := tripleN_spec b 3 4 5
  have s3 := tripleN_spec b 6 7 8
  have s4 := tripleN_spec b 0 3 6
  have s5 := tripleN_spec b 1 4 7
  have s6 := tripleN_spec b 2 5 8
  have s7 := tripleN_spec b 0 4 8
  have s8 := tripleN_spec b 2 4 6
  norm_num at s1 s2 s3 s4 s5 s6 s7 s8
  unfold winnerMark check_winner winning_combinations check_winner_aux
  cases h1 : triple_winner b 0 1 2 with
  | some p => simp [check_winner_aux, h1, s1.1, s1.2 p h1, pCode]
  | none =>
    rw [show tripleN (enc b) 1 3 9 = false by rw [s1.1, h1]; rfl]
    cases h2 : triple_winner b 3 4 5 with
    | some p => simp [check_winner_aux, h1, h2, s2.1, s2.2 p h2, pCode]
    | none =>
      rw [show tripleN (enc b) 27 81 243 = false by rw [s2.1, h2]; rfl]
      cases h3 : triple_winner b 6 7 8 with
      | some p => simp [check_winner_aux, h1, h2, h3, s3.1, s3.2 p h3, pCode]
      | none =>
        rw [show tripleN (enc b) 729 2187 6561 = false by rw [s3.1, h3]; rfl]
        cases h4 : triple_winner b 0 3 6 with
        | some p => simp [check_winner_aux, h1, h2, h3, h4, s4.1, s4.2 p h4, pCode]
        | none =>
          rw [show tripleN (enc b) 1 27 729 = false by rw [s4.1, h4]; rfl]
          cases h5 : triple_winner b 1 4 7 with
          | some p => simp [check_winner_aux, h1, h2, h3, h4, h5, s5.1, s5.2 p h5, pCode]
          | none =>
            rw [show tripleN (enc b) 3 81 2187 = false by rw [s5.1, h5]; rfl]
            cases h6 : triple_winner b 2 5 8 with
            | some p => simp [check_winner_aux, h1, h2, h3, h4, h5, h6, s6.1, s6.2 p h6, pCode]
            | none =>
              rw [show tripleN (enc b) 9 243 6561 = false by rw [s6.1, h6]; rfl]
              cases h7 : triple_winner b 0 4 8 with
              | some p => simp [check_winner_aux, h1, h2, h3, h4, h5, h6, h7, s7.1, s7.2 p h7, pCode]
              | none =>
                rw [show tripleN (enc b) 1 81 6561 = false by rw [s7.1, h7]; rfl]
                cases h8 : triple_winner b 2 4 6 with
                | some p => simp [check_winner_aux, h1, h2, h3, h4, h5, h6, h7, h8, s8.1, s8.2 p h8, pCode]
                | none =>
                  rw [show tripleN (enc b) 9 81 729 = false by rw [s8.1, h8]; rfl]
                  simp [check_winner_aux, h1, h2, h3, h4, h5, h6, h7, h8, cellCode]

/-- The unrolled fullness test of the twin agrees with `None not in board`
on 9-cell boards. -/
theorem fullN_enc (b : Board) (hb : b.length = 9) :
    fullN (enc b) = !(b.contains none) := by
  cases hc : b.contains none with
  | false =>
    have hmem : ¬ none ∈ b := by
      intro hm
      have h2 : b.contains none = true := List.elem_eq_true_of_mem hm
      rw [h2] at hc
      cases hc
    have hcell : ∀ i : Nat, i < 9 → cellCode (b.getD i none) ≠ 0 := by
      intro i hi
      have hi' : i < b.length := by rw [hb]; exact hi
      rw [List.getD_eq_getElem?_getD, List.getElem?_eq_getElem hi', Option.getD_some]
      rcases hbi : b[i] with _ | p
      · exact absurd (hbi ▸ List.getElem_mem hi') hmem
      · cases p <;> simp [cellCode]
    simp only [fullN, enc_d0, enc_d1, enc_d2, enc_d3, enc_d4, enc_d5, enc_d6, enc_d7, enc_d8,
      Bool.not_false, Bool.and_eq_true, bne_iff_ne, ne_eq]
    exact ⟨⟨⟨⟨⟨⟨⟨⟨hcell 0 (by norm_num), hcell 1 (by norm_num)⟩, hcell 2 (by norm_num)⟩,
      hcell 3 (by norm_num)⟩, hcell 4 (by norm_num)⟩, hcell 5 (by norm_num)⟩,
      hcell 6 (by norm_num)⟩, hcell 7 (by norm_num)⟩, hcell 8 (by norm_num)⟩
  | true =>
    have hmem : none ∈ b := List.mem_of_elem_eq_true hc
    obtain ⟨i, hi, hbi⟩ := List.mem_iff_getElem.1 hmem
    have hi9 : i < 9 := by rw [← hb]; exact hi
    have hdig : cellCode (b.getD i none) = 0 := by
      rw [List.getD_eq_getElem?_getD, List.getElem?_eq_getElem hi, Option.getD_some, hbi]
      rfl
    simp only [Bool.not_true]
    interval_cases i <;>
      simp only [fullN, enc_d0, enc_d1, enc_d2, enc_d3, enc_d4, enc_d5, enc_d6, enc_d7, enc_d8,
        hdig, bne_self_eq_false, Bool.false_and, Bool.and_false]

theorem cellCode_some_eq_pCode (p : Player) : cellCode (some p) = pCode p := rfl

theorem pCode_ne_zero (p : Player) : (pCode p != 0) = true := by cases p <;> rfl

theorem pCode_beq (p q : Player) : (pCode p == pCode q) = (p = q : Bool) := by
  cases p <;> cases q <;> rfl

theorem pCode_opponent (p : Player) : pCode (opponent p) = 3 - pCode p := by
  cases p <;> rfl


/-!
## A verified table of minimax values

The values of `_minimax` on all encoded 9-cell boards are tabulated in
four base-4 integer constants (one per combination of `is_maximizing`
and `ai_player`), computed offline.  `bellmanAt` checks, for one board
code, that the tabulated value satisfies the one-step minimax recurrence
(`stepT`, which mirrors the body of `_minimax` with recursive calls
replaced by table lookups); the 81 `bellmanC*` lemmas verify this by
kernel computation for every code below `3 ^ 9`.  `minimaxS_eq_vT` then
shows by induction on fuel that the table gives exactly the score
computed by `minimaxS`.
-/

/-- Minimax value table for `is_maximizing = true`, `ai_player` = X. -/
def VTT1 : Nat := 740777978343109115894078960066964610893479506326610999339575547047543519021235104023094950520303924241159396621686384171293317113102154864268814917755251693528430189376983346139547808683292824948563785006204068025786163445519434630736215891857957702128412302693452006845941391443902783137664160207373200499718078405252418350868784712463705266452311447297937638042122032722720684156419010609534351043877981997768150378226383613059249141747175464387333770751507277399889903532194343381842846831951762965798414352934585427066285248497702832141618367941137276631055606324217780746478235687900525675988762523995400840726688858387428115223965829560958692593409117605864639932439833010022615158974448815500973161191843942996681881123767009852853003902815286657892694725351445422736015981701631997448954139026468488378455508407210940244082894501810116768234786305270487133529285843232021580468389578046771566728659596019959067433642503041347750741274815043231674407547813914192058728916369054903769155532300702023378281805687087103423708635090890857298136069991239268396010687218134524100153664394286636347039303621870457996429954402860969510209236345827132711657479513923398868243645008874302225659014619074011481705198732625386263596908968740419048131791555276544156437989717350905028159528515403884166701740212803448617914021938935043003753208090676576912144215677430156309279602573055547466881105534411079642838973243450190957321139052670632735834626628863005748079056675774675886170372654880009991022446551929742576766597772049198664513964225858138320154370872229759267467171874065811012312286165916941708487042871015270393364523997154751252320041248892824750925132695383440358112274898143257503990134547742395902656605022691009995577380264245150128545137956499521213584720627519658941144778894888767643403455009600212804061275622106773082636338177775325568002056330620385192244111531373222276323838644094726897671150116185112237919186950757923877789328945798688151539404288910186817478992151290883675905546371940447926004584797477160934749842530687389175831187739080099094726296251269936866319263567686284051161936513686418918855647331563121558121637528807546920318516842221285358805314217043400236970159943903128323711880303251596048023047611345247028780711027228079101337020988892195977657247633906525985723334808789469774130935928578853153206669669376951474825054468863881749123822846003269687452316770686206366487241960437675298044531465149040705666728636959440903709835391726765611130953806408743764598219415626341946725801365779781844883130713651074581594559340661664346238255434686645991730944075768740858261880659595064060562755822985380068029899130756498226054426605986663557830484603089603603691951925773758178465842507763040289591252158156150909761330432548037355557175792166789910275655008452672433535045929323502855388925419572368542233932626584067881033542404125324693967214709416635488187645036192995879945720277578340048952350361910231108885566684865367822013134708603255740318162540061016847777700815371024178805905848878659501285405581948959980069150965496297863174478069977058985562853509497898710834768803003779654267987925749810620889198134733293098688494211970060650534779099910857389908503023488923662349948414647834754399479990887831096328682044155813159731791391710663632580964644268475420311507637942413910098413333545627623783131473271180140300486719273014627843206589453573763359678887314858825297387372920132051383980119627219556516625930608492492064173893972213461862662303590678976439398208837053518373356494170613848601457639556583353705214945457654034935790123429003077993519964201926172314485378111339369032112254151866951741352946774641438734793141764048396321755887942879822589013173623688050853708308494020545121317550185369452372287597284195835073362037601087452191875270604740668807833443735337495594701901758394089527965782754865267034882824939166299227935329186300302380091742899098950829658144702345308444261153313338596110916259654765770243574161563261692600079671595808762223463484329422461874550386367563150412512435483272296562097587441141211398462374354692427562537584752303642192512041429019335077537746606318209690189472464222077779430678089751603735671107438018272611924042058987410947707078317245927432021078711457699725292385232611894039724389249725732815437264499541882772338246164713241139689108608055972826521447016753136404000151432400307875842165418648341005253921377107431592524410055521863745496551572586278054142245810760867016803562816336986565069790177137859990483678442211713424139564300985049117803582983258645124733874219805796424449830913480008091350159764655165226075003605800284462918095531004026776501862399115044747674861192159752936998061711287006256360601648133402619053164552910374238028349756619652098122540994465268325870925640431437401046573155275838884765198367813698816510905160170098538128328413377044043784789314972542510736611609668742656224657040094716331024201271503652450762123866620174234537313473999614478393250974795768187474235159262391010547685241941668848163726675368545231667176364025850400636336983646797380451780817623208535232146888638563126915671452791170210424934036109656419480623531035428511777811448736451647120942529965791199033793239272481310401849407656759472788223955609623082042359632506633870101636769169308303258825511780241892388830059302427319655055836540699757449752636491912742954507143766140055174630524740446349253625845390959386414334350956688284739020337967813189943740502254241961573413444942091234994809714083942408180340206474008943879165618050631223415437330291946348188314998807612836264668420895168811761097081381976846678719958722211587833694287043844189238702815019408319538543909525610007816402043199344503655407274864089698859869941857556201810343647433142905090666179331992305895048909312450655103630147094079313593703956708003249286038174555769395838344731238509593301357873575639871543811039340697882166776619426383239536336718114612120020755047870835517054672252194005476048349905351584813700667096816189379693732929875300261947939832339487129993660865849513963097344812512548188520463090960939159433171690805109238735055289354305113676025964208910698669092667767953745464664116071064030841000009329058610940622611553721605967551871014918016609635541805089307161668014707998464689471057131144030395460890234733707963968716815709001297886078746636015325591101893511239355153401543554765478054653416565415599804881766436415233649026187661971076107814642300303850731375392065445934767894756946051537454251588669859885724935476740150566834550186564483383580224342057302953085013252317945245808940972623171209138373884268097898334239543389898907785430967831552457027133476245773651073113504502031451262157714250635839583729019676328896954604250899367891163344194801938006603396217135010288631572844194151164128918507044696989103891264374148444380652711076548691292362955721718398332787328882735815964541150482468515327210479181594288626583275546318112696739077840861126746877261252857588661602607892144975501704778019841367852136304090114812964156608905519692462638422725758882390080845011109331601086149825899422564838964941035742682102397521789973718582562400287927926636227056827436580049208566520483070280360767824563868736059761660763970273311444112074538384125728279661714039461130746779466300391881802698487026885957437816133795215884956145816147331208571865538828673823582026719349858246988883405195697822957259546755222233559047303301684356872840398790477754739509757295390144685739454068888893776396079271009864775026646353875697949517861346849236097567422743411586487026303216184797405260484584861917810278468632220443967623267003430325575277209659840682699278111153243288003488104562558197402202098215006239135922787172260267225074684466986089368169185757182150629493823475838044251839359641174264843810884235399544967961858303159493057578153408877366358631611585597585101596450471578984294192701999647270938929524954700493662365371583903029892956913259076305303751231802209743722626433559317001057734788588731951033967100512450617987959874472422170288906730976010424975157288018865803346117811354396706061704788649609778281968511709884093390161597003120044486223563593519267896449114718725463052181601235831465843684443601904610876545427959275112161600403546544416288035159975482123816007445125103523310639308987157400067190837320071491871631036833393804205657174981117433476382136222785887933354806853907074534811961141619729183811153666535639464140108473152676410274051322795560703750281444904513656542932424746809124744040928556328481836021613096952205812081224000965596771769288314875340493630827593717554147990541670049903615053128171959061111727144156651827543226103435588559030696017982581810765286494938690680490136889062202309358923351809039901672457946876819869819580656689794465547764159998464195690503532523468209990546318376325950446027692479655069868126989164510367250405054043493643754576307474865828873648826268293809732026057311296691666551077262214969732538226018497248353531379390317309235669463465976318715922045049144684601109282600139973885217313640222955854147547052849289930961345003538588606973712342733381134720414998164887411092271335914343550978268135258281303765234549510763297720712878683603045831554328454154124316708696526568960161697330804478905222112206895553512202305060836533361608283772212617566825204178811564842377488562704877415990272572458962660345259463924213586181512215914690790147097346736316738568554305590757487942683082408139946981559493822234294606797950696670176986617843373520659839414336998614818384620374699396236790463200118331247327257392624182896980602781853110656769340770347961800262156551967678905757984559113612944167781427693361568397999902208225445874120055500292043114560926364617366763792404884340319514829049533767716388237605025603083755962483456912075195946587507585012248594024517354297554076646071105524100229794268018757730842928537561034619425189885246333589103173985238861161277162766981795530527981553344675921873094837180047282113511170036870404227266744664913819640453949655821748911516806477468554074219790320551669179592091226809185009249623651066283907035523932848668460228162798156452302777047058959345816307682268690921916353743462803021060875036922380052835466742474835080446185717366220365187565945169734047544496852935151377669193523748252810449252678044669051215345904361359868415233038179792713697219570450423115129200968544997019129242082373407619591833519024885782542166843809939242135103698513286512460695818099717826474614293641239897349799721504748813919095012942666636704769624844504026335405565212977380408718252818499139806669397030042102401427341882176863175311742731999645168292762415971859340008225305392872125983069525060760575871266876039327109363854694612349643298219349160864848309191477682795442028043939858548551741583100472595584000134726582836751730685241966594731980647623095538866400429903796788961110504076160900905791063138678082224906137604173839689900069312795420630877051345132568555933411122981214997968466590242150357960294546249841153301041188238632668660781263933759237226816515861574991883496847195277362331857390923023458913250451396230071345775607271375607536204363863322163762708193987965846615963992283255985443634728557348969277373373624414016044301243461088569137873095932949401679959403574249620446954372443717561066760355392325949611924943989625848531827247127058594591420846931929760646184073494297218392887604912649046970130125615245348327855258951896157340108844584470451170047662656705688084603709679201126201558701665709409156097618423683976096119752616933616776715293911985282988404309931526343003689324524992670897766741139639497011401564705441279967279113380901771381471904694493438774549554953596174125042803615822328354110991097994343076572915991371216046434235780209290431969487854

/-- Minimax value table for `is_maximizing = true`, `ai_player` = O. -/
def VTT2 : Nat := 2222333868798616443194439480420703045132693216883240558832501455824580439637899727153112483056785179151254663081137400558470505556336045519023677462853115701754502563898926291875040039984088953857067890289604443733966520252444726510235512476372725637360240551406844889652416596113223210525345381051285348265215855051516398591442125070758259647707924686208757131397014882518405345766696942599948259128028622434105507160747142946667708877245963873096673071099441659703773119503732593907511726948611818351895680068710393619276634596304992141555159735637302264360138323820106300799733102601671875871910095377450128007390911432442715778169782032286138702963261031528344448727170127302489627742726638864120207530467370771610551461355249048532698150651777916407477149042120056441756510274819350641998591686061797396828317225708455973852838482722370400680612747358699481998340384280918569138032234564212393936621357717426207362931625371450010346912775347270634511468824979590078118227379301670626117226837483919382970945416384787125669770826295377551966237953494611768764839571130304449206470784432875254968182104419022977865183948081968661291067033410991185934017291831326630752081103118329446840146678237640594568227524238790411306363154739545446954936830514254806543207278376669840060777896304387603416988597563729858483906119231166939407442566270648359969820644787874851083331484981764499411554884825867877416108567545363263654074461611241277648443167072497571298957039265313324509375507658262756321737483834126598770231042866786603935787158977527878580192671461273643098931961367342937153114196038522443126005891657926985666408793743832420635933377651431489560140934703539901202379253604485869292475854890191763811309341375757681617867611932057972951541320682461283175274054343618289738652238632719611373076991750747901008988293475198087508765272816034663236195635775639825586684547217237326199362800645180947775659224335007032273756033324071553400938401987110617091325581337085417225834872664998203392848948886706373995911736867125758138827294194881529207095360311347381816749126299903846003643626542263763358101205855067876469413232980209205622692642246213601868986369518407691289525442493967419393329211908597895689471502690631052841406363833477843490897409758332618516999078948817650141843455308062633192645759907956127720357967607981196670739123659767227774984728873667886610786594542671080567907228131807851725923925668493262114099731614607123637587928562717487487864353658521282430103724068612082915200909678079809711970486506323900242383347468342129909689288951803500563318678697999652432728301376769894337691697563251566536829216139675537255568773424867499009706569251258718202806549614545447706831779835698177030583962952930653408128375321461493545446586740916226359053582370140013416554636784360952924991362320195517280671425933007361200184966367492725148987843536198309647383195919004791123574687236134936206738381970813113125849041029325616570272739333041152213707913261806932590196118994050951336689069542082587509478041484193256601234253197542953279753520378508362644594613660288287790325217944241017314977140968557580531517790104498970422897917645883724718391240271580595617079233888364379710957883011946890289566765605100698562589406304020746751397090021487314546414780636453397422681921741108693248683075598575586391032752156294137552656607044908136422357576379885950875574598668403097719736298104523551217339496684728808200504350872148029694050522720329161700062443941242755137868165398418305856857389259490452920482602514967737892875597219317359486368851321880456722395255669893028567824381480563239091908491351384955914703977252159801382089929655150332148909238330114779879125415420510129672172653915698992508763896072368458722763470989727736383348360403971118519169306932107167994883765655174431382493758044715604182249236233042726480813617740431891350162717340716362674380375096372127768114736492759307840461947841179856065516865852713266629315446336587718741309571072426776619252367415570546292324240312602615009895045697139964042884450624263661481102698595647149323191863487303016234369814711866824515622680884375452534053287318554518476416699605177885402110306790531341387265599805635551552768289516099999701173255298894069936581400834076897795862426787271189134956118053584796405832613070915051808357204042590954983187090935688341090117524456311484613622675473877180008247931288695964583155742244074108138172760645640255054558637174378444879389645606678753302581724676636369905134742553366225030471651560042846323376284403250535698557837259607962279841690235462374842997566535624119209898757151640097048324329825743688452642007728896373180588036801189047938052026999713092596189430351224413339603681816556013448280355645238301630239337377036001686362987224953451912402903246416387370489311767620421323357367065518859817326904556111238264513948646774748125669128792676440974243365790560586400515622764067698639535057897909145644697971441943632989839095402775007172029998824639898524028836333753553196566550645985842686314665263273820271025417935501204567271044755366936303524733521148783345639390899149943651276601321050643224754182395658496369231558208353961512163020411765100139178330108742772590951641720430672326997621839357519143142775278449625491480201822991070128337442344771406832146671763837354670595405051484267500219919243791259807243105189832585465246946531606983911303915059207079306097316509230469456127991445804083663781629335363716464809030145321654696779204483211064206136420278818452131469819227824959558069371724417363483266908180157416784651154807534461831385211192340672701164869761656955479733431540098557513554919274901575248952753694217308771059280618316341372409038349328741540362523571990386882864476591936112687712955768570141494667920554094376618562982676654820659562194336999302685845453334324286091003800898292403767388838558205515684304545700104437324935302953777267172678156031572700214775620018672139148467714897315072791832256816591624448016245587957684696255366809664510416803037370694234458531978407020361015103969114016146365072118450026917120887082047887622325552158697685558808040490177492675783229974182187216258057388443059746495069484451652083371537481460586866511544894866948255945281060995509161252645544229702254360193204636195421012838319656522771467968170438157733227615775813345653864565994125242325047093511624049788972623132615019907522758741134660653094931622503403097940630839825394173179219530851404623013810551916632167066991296633280265335590510904254911007700686367623482615198228266200884957706282622131718646661009014257041825084938584850069829419389240565795155881897337136541344513868646295048143705738384056807681343303425739028118032854854949999980975885539427024542464729547418858653462728259787390771889718930635952852406636752164570327464074962921014367607348279302016593537924005593374765375561547748773039403016265961032758352851287639681532918340592335647090341750334818161098953880587951687089706412200520697794738399009653734323668510348217753262767713317526032873741277766976986276890874800952858091129283498930047074064675241850156786142723257417164305632221384321907646288857981414032642036273948948745117474612946366231668875199741983816656648325648454132721948533438859000656678675371434246596936283688363292905580252622526244977831556892736327033114173645126168565516026027289361016087345845439920363890254177023480016131884888918980205181636137404643809053338731172257307392300571844009528646461950045078972984686775841952225304388209471970447807923901051242174197123578708341903396095590005666853775836018452177964568919241777845003844798884622913557282032974802685474383012771669630986558517781604379396505655000501581694522963158677217184825394669442705385137130861350269430546944849687261180079334027453857218256225119973129965317484030818509631967535731566673464929753218441252105925941345001105418470137805926774318846719843396990958937105323487381256575501005506399058996099057824866978625750421492566613590491344564661244455850017497164054415713712337077881168849167907106148688824896299533357353713564743986339582341939289158737811335094645627365314873740104186766491223946709213387611090829868476071500000255659215373628493625829670943841321204779687969017236904536806281924305379326410715542563512595312738120284863361727447893383171588903591063857222409563172984824865342840934633442503093035523344190387931664069607431496239700990498005803557035761563025643718020245359880321864641672360894208219235575610404363929473140924025438075831695599488236727659205917374059545638880729117117248053669246157849186505473844733563054433492618872117613134280843969756937473269818276027503198587562393224034258038280979025809551387653689159110224671928335140423593716585891848575884544268495469563468214907453708437598947171366389799780808169560508409154999952704430792498368398987587100311852464222079479298994800656395985867104245379415547747970133523633126501157287546536779726583367253515839795814371210604633524925422134915750601179119415030132002761719655819328339739467087146336470037814827218247779438460542791337020481451002399009464998816411439767667754534251470511170965975939720874534519690519966681468279922577882656409743891410609908008132283037053828236093308811056399303217286143678124608970077367390357514753820525164591852721727548846390215612978579765971880427741150395733429969207583717692925754634371571688529515439595963097935221263302345697391269289248825994329946396916592739712381157544184275535175742557591358299805507966116484922492798231064824224776025756227632016255743048432469850618886292597447084494676379931818285942637893853994001212386258678663367629862985209382782334692131034395495244090601555004689340421644935405814073299370260890841318730652596320467905880441919470207872872101899010070633944397721226169818666866225326210357300214327963965024329929359150010744083397486107423045499677352486947719951718680730003881133479140518753210153791105469812626820674703543573382559561596836148406832230741322007711533270788914051633288098855867056234311090157791625842449878380243648272665397492276691660535809390662572319410808109680422255311022422263186954474581512110159863995098392620046907848333822363596651987936049678234496784332495477664248330900442595581723920568402242574354991581427679992694669944607272701423845051166477711949856005814313010180393143023854530226715539818778516048731041492740577808849461594972437357831322219151911000694554426115819898968047011017420771392176631644956798386513845177441736221110696619966546543455772684606745232046217706694160308102238505784947779392779986179753514464261104057974724847443028410487004846311990869617455138687048730018754041929146719444175680898659846591242346121193794724137319736393850932130703455997075158003070847988500773264501374263384101136611349094277321945004214050912082388028122827951782502669425578193368699568939240731293732759560669877513662712249647805201452561591265871434411614480228517423642483988376428618231458876577542927506686297303001257307535972916363114124254481125564411291095622889915635481046594615757351467542427029468852234818788296740863542708029003571503716324815916214857737126193587529339782717276857826738978632912608505397990006379595776391847275685370826099727303859099469267276053012790107111825233114409319692536380385632856228478190468583724388795620048745434107960759792492380298020684948118392057590719619257298641728801122886311592961812451996958982653151772248086764377040502980846837688119911050044771534536731174588037681623871026061790581228489172318257574349588388126139106470716752855477802370426564042663912580893439129044546423653517178158831571877916883962516986879861116592505501979790335857564591872389436239299130830450823841269915854507332845857492002583902073627829516047396360255947072229627704098234

/-- Minimax value table for `is_maximizing = false`, `ai_player` = X. -/
def VTF1 : Nat := 740777978343109115894078960066964610893479506326610999339575547047543519021235104023094950520303924241159396621686384171293317113102154864268814917755251693528430189376983346139547808683292824948563785006204068025786163445519434630736215891857957702128412302693452006845941391443902783137664160207373200499718078405252418350868784712463705266452311447297937638042122032722720684156419010609534351043877981997768150378226383613059249141747175464387333770751507277370626756498095261689399935514457997497282697286264186034110680095639414463961631393382531552151121816936491136840725191086568813140350169979160752640300929333374746372333846300596051771574238558647542555590973825962713045972616502225670086481106318999858334207373035476562407970774882222127036887713724969962982924962989817465908067331915851099002922820543240896444268968298086767629125475871490857784684679251136525254684277698291163473975625497188607302978247505689719686172229297138403496619324014912528199465070254296477391928173698617137778009150878314387284362530684980913171088141149697758079442890056660909751691823470672819341076567485054207061014051281990523998630048591631112334224254063094141185025243072625659255117823962919538448044007521666489655064724339096239545361097545513416099667200200904381777690597126854381665326170029826114211965443729035181858740741325591782651552030896930940540439493903983794052699735417555050181701833511694537354914217476451201676194975299156614378411217879755648930497407876011157156234022878322328588028255214563988127975051695096881644217654242391754823772309102324109212444968431264849231346292283973469836766359463627399370416469524793415194483870902531449325102191895816684938074034110390627277869063168517881684972818518111810890594737231294519328973359629844509561049443805078564633975372240477366805191539260500740781113947783117444522394953008099116824215808070788854104100689143610428569596343853066382611633019974707339620073502156655352984420609503585719073903513036403185973989532799636525776886054728564572941522494488614514777396178508506214425709178435685026274016252997552503270075235877001272564837418996695424421599760867772144479368645545526151605728766914437951701571780440093222720930229451486636967044122041073388498235086539312350457225327416633164297214479243906342877531468474024526222069826549960269296711546065422080889879379448262141405083769094757315641130571213413626650633572948146267020870717306767467816809363798491747155472268250969778441294423462252553143399390672464338602156561243532215716918431720367259598235270593345228877424463035641439837280190315414651329986591080538219083156067596403548653695027315815110415506222018827937201722030508492965873690854754165246210754323438535055866549928955069470784382411478883487161665864959500816411560323060311956698393162603928129094261397867479882673615695932689474283448725448451675116055216997047218117961005007258385950442196607286644237543107826878065838934714289230555252987141802752035991988108376343986088882370672017017887803423444537289920603564079369432840664775999363258113950467870116039798258434288324109287241153044140254827489198465084968132144674998736717274981788870604464188986803791238838692429821540964295860753449678559109219549306753435823443314625815915742417341765723131458678634784873558723748887154916754300019951858763586861851689941918500435883701244642504645750484030009831595592954543638301075760610475679002028185114527587114815021243373090649057769005254264792905299735936396760374653093941641970738008449950398848626292554934912517566336174323217438630999283948575827930537750800754121275501887766084918885332762955051686567029717765792930981886308125516316671714788574283440828438318624638620399698493942444654504342942968899859420229906775119806906463872776931052971716135991576351050213452320987018194247843997691545403802885924541689057101503688329154934038812951051864083364445740287866855951686307602644009855809258403329070040305695304280451131989580400553103460090428741072772833497801452374870648599504478263968929446657065848822749193475436238097783219345758028890067272190969731213550308009976798442172072597539173111241722729264147890991436423869125200538390748967790957724060619880245191025515422007691152674321461980378499091875091105810997883292425874703909108926140591984231015266823146794727423328440240728330935478942895661644645571275015712500357814565043324787108545238653574274894274498723048657205643361494023212685753080875531285041208143142249507354680533774321626291086219385973914855320943109799404663198881640859978387555430957027122273708901270152385205638769936253475070002115578586743917916293109725686696638868901300012492225117736812685950966819284921984595624464427435897268259058767277062756021192512033339674942544583050187936048424000962701945764355115246858919790782149139379349515416812791562272725660892528560577940878253228267596806266637621087083172328205525429646233013957741058868654287842634690159957341977963653972989253402760692923217062303947230406651611740350536870135051153419384629159602138868173212642348314275012771842090965737424172725720609671624396960561355361699448444750966070264742957041294396348363990699463768604040591304313035977962328871821342328134509584165845903563317355985042359879046909753821172088052511083215815986663965509559642402963540178184348646307127783027086904961880415965813210481033750237338302121506511831822009967124266730332203693658698024650034444326544342365058705883524942788531387045160076764297275038556399398713927667773049057951298267693624424575819969129575653088336259491956025645218313941052702899983894308214241592194041288129851740388325432060708372165028105493900087566077637679866640011397529879077744182337378304271131227748330780633473278718166292279543997271464169093127634206458639419564763580523346751503760982607445834540131795237926255315573799317010474367451743940719143845791672360043082064553987078879421229041934570051062536019976583959821413508265106600803593722420806546841001379598643572445349623226063121902443423776306374963198886721492047371061918361262203714422632329335036183447138724056155886543756145511898825490600589807880823608780335405415173253609431343192226171995948798241287533894412118992290294257614961148196987270484862677706099198559555597234274007141573678498942649462454631279769205043394210358807818229251534989746699366957485583300750623624089835273752288216484674478247366067029633877325078818635260688780150849019083072724641443365078101249558402526325526005086699674653262598453303676964019316977263519774106744679294092548285750893197328232957096813214571200726849516521383152702285701656098712850729677767010109811611967480919904254569515362698490120713957486430311182657619456557254282904744913968644264455196244032866646283932539706499012307792160135766441347323967953947927355034734942808423343638764309284297653837361929817869578332756302051411082433327632316815153512769088220456578213394310890127944839417248193648885104912306530231666251548993541665047533921492902326867147739152397849432109603380673613200677171490709062815690939226524548118679997113381571127617293259163603709523422003617880969224988428663673747528966940478543015106197462651904192473096406137123113240807734519932836449314608866569568968039735732055662643986370101980771714695817647603143340838186861911087954912918261346137035564549403432580611167300828727267079035390606950429117132434347805049415923830220350321685981368585426633114384970916488025074053940110909807768304092516583378688683575839464467482727769410867289338355727452375488843960982109826285200545382424701991251868224297681773573588905640988516544222903363097403149141692810096266176132762705608805376813751767448635739674237090747522552520523719938917170091451639375725240837681582800961923633483206943274381042994063798726610788100563830858779226831273058718350802880446071768042302073833210946881113930991216332100050661929548785526851646657908691739500016320354650983470097581690335305070358220899987176190750813695614255156703332030614981326851472405557094342734438701146152104918109607808108534301175134170635259401837690084241810359745031190227438125010102052219285571114552400910015766478023487658063274332735597416303550010430515858943176809427103476053723575991697128469201432591849225649419410059366039205534527930977794799075296466876444338938781311898465239347610858025476963177782540859642175685109194946468895909052450671798230590672859461144758679831518221510215017299064726193903814345381644072394936902863961842157777738423113403562975720848081596634010216654667663961073359209252793858354319566921251295470894505033481886540023999552166284681440178383979772450880796847693532708769481248413996227190714795855558661844511064613786363257930668563605680856472085209700044891874402600427445093017169895147122799087468893486677127382896551234780886920581392233733488784908999503963086855994118553986984119177740922761666002814115818944262541915917502528358712672043856034097970696736781380042853804715743124633261349037396330199380754339776725464196536247529582622794298466123339938900359128604263585438357619873584083301035931226531026678662660149919727589309860813699002111738240917100127102783637799725529485688862881103103584504761666827841313944808907969960113491220329019728304401270945312014091027792703536547584385012632898417607355811844946679082864088887862655659008592768831333417841017767800026156719369777171874503444645719677219748932003819795623696390553932416301223002100119236310842483223126436073848760099028690821173853915712793799091773638948005112818686315369107980797539664221439705965926487268423420559070920932131437064722410895543738880633972892649589130569002880951271735015694502879656591877287335518291575018641597599954296104878328475118473887302657240048161704804709621953849405094596643177378326377456222964435870923247283879515590046182626788632947221498902768695354625075897562545786359850070252656933074864594354366709340195955613309585053236280882949480174976965445643960330765304793873600382469624740861417773646934044182447872368928483016891814758101321306343275951319004559728749119187838930025373331576661333145147644103002719187441204491680426495702739250099003008885248098002319732332775506667283323455611798082207005592378831476513021490346567206359787036409423765344520703230923932797262189676188737123654952763544045210775724280015168403206448512597237077555242339384755397943705911297409327895235479601730025780606640054032240956740964370999276967070853141080481490058621256847030881846005962822064078091652681771484882502719446622091603622273958303888186864512870964251590000290292313809439485859489391119974068932160821493406212705172132672510299038678751647007974025956194122172828602827136280278440620750013853853394740564495137498401950300672797809927866873480258065555909644352144728835263279175844785148930837717994516533571550866139201612806016028455063860668195221273212285936357570621812017209220653252070921951229483987510967435822001906751271717580330733836473479991175685238611140800535198660726631334846766137340765910437075896297381282199202175280085537939120555906084821872029722389924262765361566886065552053804778832537344340805908133720858862557366699907453002318760142764685911453807896100864631190923123807384137227312252121722531568194449209349192275747184771646119721235012621002509404024062095211517552195288197268417820190293330390910039911885701641426898003905414703014064437556611631128431296865544675788023673243118564050280249524624144568631586137522343261209373329611848204798264413610167607089667864301844402264360024870705729669283848986509601990712540754103402098917640871086348944639092123156510700564808959663630738876309955899054515986095558012451991159339557964631464753862326494273505117985442411429979454543286910997218621849991831168317233050

/-- Minimax value table for `is_maximizing = false`, `ai_player` = O. -/
def VTF2 : Nat := 2222333868798616443194439480420703045132693216883240558832501455824580439637899727153112483056785179151254663081137400558470505556336045519023677462853115701754502563898926291875040039984088953857067890289604443733966520252444726510235512476372725637360240551406844889652416596113223210525345381051285348265215855051516398591442125070758259647707924686208757131397014882518405345766696942599948259128028622434105507160747142946667708877245963873096673071099441659674509972469633512215068815631118052883379963002039994226321029443446703773375172761078696539880204534432379656893980058000340163336271502832615479806965151907430034035279662503321231781944090472570022364385704120255180058556368692274289320850381845828472203787604517515242253117523844851876621342030493580982003419256107536110457704878951180007452784537844485930053024556518647051541503436924919852649495777688823072812248122684456785843868323618594855598476230374098382282343729829365806333680601180588414258963533186912199739999478881834497370672761576014409530424721889467607839190024653070258448271773968830834858008943509261437962219368282206726929768044961098215779487845656795165556584066380497373068862701182080803869605487581486121534566333027831514697830970109901267452166136504491678486436488860223316810308964915838100915613027380752524077957541021267078262430099505563565709228460007375635314491376312692745997373514709011847954971427813607610051667540035021846588803515742791179929289200469294297553702542879393903486949060160519184781492700309301393399248246446766621904255954831435638655237098595601235353246878303870350648865141070885185109810629210305068754029805927332080003699672910687910169369170602159296726559754452839995186521799521584553307263050185924633713590919957256281290662693345943140358556903542909408363648908981625055010118557113592055207242882421376782190588532453118557218656243756652958027139651144696649447584418071888302647469866348020969143222575197967281924206786551760949482259393550110505690932935314402451846793206798213170145599946152808654808660351080773497147732008484318935411340615972129982577014505218382730115395004645341508486170765585178199428036498221712557536448895191361970857930832404787990086689851838866093760427438263205984960351785270416889872887385376558618461400686918062450084453893573191184168296858229362612814244000055812357190039053853066146266746540791425126521585482574535272010070256656201853836925917456225550748730563724249793739626786517764295260267193724455892294002080934917806367401246384076334114418648475058314926330000204487065094504886298954446278277547616415804809416407984194721559422527913093705841233901609926111199158364664099991846698095519948809976830682664089665062872443883702668985087052118374813420067667787251676165162271537474039917839304836220237189849478994800143519543898380914875331566729673598131551403026580524660069471198206635373753348047207200326277234858300521417314439798494293451300321886937406339644681920355955712841866064830333920577793739398728581218475559079851887020552411694963426140349145412375322895370603460427268603020798723067227891383525209694055704739000643834127934153394509887148894684534930214999155531258579692361013479201529422262487970266869011973027739233066568739098383033793247243804024754967874192468735741970398941577258722877387472500886197586335371780563417490137392165758334303117581998215422088781119549331162855509768152652584990810704334234898339635625158777269880369726977003524312063446975741439491588001533511932692624137410559196419645750336829074492278342468837959593861433686743414122291956027581662270482588421481772058192501878434820049694501460066342501306672596482570704667403197592233816008078287902265380695704156404130208528942520585122339401787160882847926493829147968721825559052258827881960920740927138245587998460934498532022829736194171576499366083184631522844932130413965390819049910830180385037727064841318597299121520612881863102728998073510225381213404103055577311416618386742716485047510363598578280648063196619999789036369821918595254629211933734076444444105895012746870977213874079468096845734423738178819744875371048347111121311508449239396861554315767299981566790321920677665988491004216985354286203315740970228267976683470841735743939188012225507849575124208819539038979781943316398399740940851688943220969165375842067808616052769945904956376122789950338157280058186654166602103350695726976271275600854734958633390396456502116829071287088584236399277476773064256069540273250206537510713461567387267574549465273087948748955312638915317484682022272387318269691320282017974863024407446176928128916953100370400724632086095382743091055850450403840089945385529469875333618794219251574435110928971785642343777313920361247962454012022501539312721709207409267009174580125456321738657878852620309712004404263384016290425468025810463742630438701481210889931659566222256589736028538895816572004741031726312553033569437047654378700860901497160711702975561900067264661530540858976425795679058424402541521212207614701094437887601552690017836354953352898005351929512756732658302277986372706068584309829879361932929485110247004959551502988508427692651455769118879219274447641942064084967728122513479248784762081479748533727980196804155795765946987343039536375747445069217179735582519851791218053510507378447885216831666556399609313719207391970981806012447535853161906762985025774700556073370246940514160869715187150115410700435235809477777009941216859368113710324969929762188986204676229842886412176464025503766902989306660667543500423760252423737427863461872402777926639225984491679863767260464972480432337002972789815095080794108269687042355411012675239776928543096896189450305819712086682402412619477164619940041205543019793924393365052774888604789863591214987895760101352084137753891294086384927773670671230198960110292842237813412627886310098044103313566799530484751542162988282950005530855431502781008539349976333832695060578018252005087072367670726227023369823467250940234036262618044599174112821264786140139577046569700886261601693806773562984726860696945197667913027382367418118995330890919832844833531449582150640242557900634102146968716887964103830956139054755807151794933451130728238479502589258818824986828366363328992517932708404786343321899419456838155370084602523777947288380771759144139266587237431898778263112855238839196963382925490698568157777552990433478762134401085708199241745551296491911007763388765550965381540684995003246206028605592609063786231342628621853102794920267911833915544060149677975600439253946364969894364638695170472499967578335999924875108949126572022464236505990480297933097696623575063590069700658995710805344638627874190123765248837843235690139167715324013736715361079222596912997665412255259149040577506783252018550033340476062616235644866946234729704140280727492574660234801956455250265393910353560642733118389249947986480707617315635187262950689475755286699468650730847865603338034213388365325675102545775680580607308460802897730390365949966773547061897044668096571068768005877569793493204542126633058574406201050984571859509805144428186092048075726611074023637877388531370917985837362968306002124223128005468109251260133915495874989252996603662282563779675006547189768109593011937002587452592893124218783194555782135568872785852924319265960693933755605187852043500699172199243896302986764312424249214026696915775691433240096091473912075267575306493064228719572118616157630187273792514479641925815977409239158377152574558024448261932026246689799738106715625865579914906680813776800047500379982466777343536944073088945042787372128244365093574010260618417869154910625417280767808094004896334101830953930702618246210884703702600400125415803213841717307543709690790945756500734699301693212024402794165056829226268334922716904016501611661830411763837461226117278766803326019499200283934683673917858353100094787030590525867912820811335352035489341044315422469386186550884627192059273236783702650179338671604875133938816383754125614663372363657304260048577769855041101756157939012370385611764133996727938676099668737983636169122679546070270241632540186664811026295670406859387336599721833872116355762618223132666519312775153281635277207895525777282041434827091209204214822646173728328143849908513495704354592785244167530301107161459833444981298891103754002039240673670316623771151855560538661677042657873110724028272993011659067857057988453262291289700630727450427393987376620545585294846366634992073006088891840359248731316124117250428408788060676814060710785396550726477421471491229324663428823309588147758774823725517134671942758583190968997097411912902179938252510165425491227697734280098206013611488230492520988490741489141144072809922732582543530639591930970362326018759520638779431277130492312458789897789444945096530904931976452032711661483269440234555226002169875713772762581431442763491553758914639265119255008963029933793141320982303353456453221340427524544918807729779365762001939107118765803244495405393732013250773999347630820796631570098214847787549281978497127495844123159216756998736166155279674008754791318733566636492692139408124274078115863817248053553070518691311248544761263735692586351699815776900015900390398389442302200717085209905513460124424911917147389718816975770298233033184752889101748953099495647660566804208403845447006469999733113557321949294805665823339469579199871004861007716824785714380699040396906107522923338760496251686713512728994229091747945379558757593810017157918277264281904514077235648052029982582472931196019697321952352195991486110996422957597888158557900293131486938203686869184576791016754375033127011114631298094709491629397836419970219638924648598158016784667929146869312050554542818052344047812351648189747565339285744727659884443724073486396804050148025968743929869250218164161003181495427425061881206500809190220394419457746408561906863740081168485602587285586125326653820022565677987700153305925094884780397472835544697541581728177043911375066652820220416009933591624270140148263169423932409296474778695060651928499213612514224513290415096782854311525750040958683160646467103140777808592052864224584270749788688121774416104129037749324841161625785115157350048064523321397905961510863866264299063243431841786053838228588528148545245228257465804124026743185408054440279712861657740980872519575838383622214769608883789559261186255496460527440697358988032217196395466289526641709486807507435454465591742195617678533555835860716996132238248170487140604603353150079161807507450275283627685296114848733253316349845960972325341461776854639959674473461716805232988889116798611447283217171882300448546627067220486128683270753279912448425752285965411589702387134291200116374265096738380976379368129351747052569928848369108485462865878262052490057643890113963445059737539721030034500931289485846918272076152311933440864379596746445694836315262308710186887883573366881746087792446594216913939091777236402397078860278086206390359318892823439903988282798837285099584760125900718261618548878362591768101341840656003567553473637598025601940250220178562296208475955904963358938018238731271307110136240197756131691930113410216660729737126960937575524475943529595756281035874174929807423614831814651396922886908687355324333941326987675552926588151344854214891752757865888296244210926614437266179917276803252467562193344844045943500806923749374356832008879990907658528995340759372025167032464289818007339735212058363912266290963851219914710676655673391138079355659212240370932769794456414581117283824402071575546932791331725387557009093060064743443355458017547829764643345274281748065030143976389930769249623790206256432283713878653841808431792307427790656250315190121199527454139539531932629336729524361576383261517090398244780052268431033918008901645992936963113680903516792241330263220162358673252239984379450652255480166381431742347144642016854770364051843430

/-- Table lookup: the tabulated minimax score (shifted by 2) of board
code `c` with `is_maximizing = im` and `ai_player` coded by `ai`. -/
def vT (c : Nat) (im : Bool) (ai : Nat) : Nat :=
  (cond im (cond (ai == 1) VTT1 VTT2) (cond (ai == 1) VTF1 VTF2)) / 4 ^ c % 4

/-- One step of the minimax recurrence on codes, with recursive calls
replaced by table lookups; it mirrors the body of `_minimax` exactly
(terminal tests, then the fold over the nine cells, cell 0 innermost,
with 0 and 4 encoding the `-inf` and `inf` sentinels). -/
def stepT (c : Nat) (im : Bool) (ai : Nat) : Nat :=
  let w := winnerMark c
  cond (w != 0) (cond (w == ai) 3 1) <|
  cond (fullN c) 2 <|
  cond im
    (Nat.max (cond (c / 6561 % 3 == 0) (vT (c + ai * 6561) false ai) 0)
         (Nat.max (cond (c / 2187 % 3 == 0) (vT (c + ai * 2187) false ai) 0)
         (Nat.max (cond (c / 729 % 3 == 0) (vT (c + ai * 729) false ai) 0)
         (Nat.max (cond (c / 243 % 3 == 0) (vT (c + ai * 243) false ai) 0)
         (Nat.max (cond (c / 81 % 3 == 0) (vT (c + ai * 81) false ai) 0)
         (Nat.max (cond (c / 27 % 3 == 0) (vT (c + ai * 27) false ai) 0)
         (Nat.max (cond (c / 9 % 3 == 0) (vT (c + ai * 9) false ai) 0)
         (Nat.max (cond (c / 3 % 3 == 0) (vT (c + ai * 3) false ai) 0)
         (Nat.max (cond (c / 1 % 3 == 0) (vT (c + ai * 1) false ai) 0)
         (0))))))))))
    (Nat.min (cond (c / 6561 % 3 == 0) (vT (c + (3 - ai) * 6561) true ai) 4)
         (Nat.min (cond (c / 2187 % 3 == 0) (vT (c + (3 - ai) * 2187) true ai) 4)
         (Nat.min (cond (c / 729 % 3 == 0) (vT (c + (3 - ai) * 729) true ai) 4)
         (Nat.min (cond (c / 243 % 3 == 0) (vT (c + (3 - ai) * 243) true ai) 4)
         (Nat.min (cond (c / 81 % 3 == 0) (vT (c + (3 - ai) * 81) true ai) 4)
         (Nat.min (cond (c / 27 % 3 == 0) (vT (c + (3 - ai) * 27) true ai) 4)
         (Nat.min (cond (c / 9 % 3 == 0) (vT (c + (3 - ai) * 9) true ai) 4)
         (Nat.min (cond (c / 3 % 3 == 0) (vT (c + (3 - ai) * 3) true ai) 4)
         (Nat.min (cond (c / 1 % 3 == 0) (vT (c + (3 - ai) * 1) true ai) 4)
         (4))))))))))

/-- The table satisfies the recurrence at code `c`, for all four
combinations of turn flag and searched-for player. -/
def bellmanAt (c : Nat) : Bool :=
  (vT c true 1 == stepT c true 1) && (vT c false 1 == stepT c false 1) &&
  (vT c true 2 == stepT c true 2) && (vT c false 2 == stepT c false 2)

/-- The recurrence check over one block of 243 consecutive codes. -/
def bellman_chunk (k : Nat) : Bool := (List.range' (243 * k) 243).all bellmanAt

set_option maxRecDepth 1000000 in
theorem bellmanC0 : bellman_chunk 0 = true := by decide!

set_option maxRecDepth 1000000 in
theorem bellmanC1 : bellman_chunk 1 = true := by decide!

set_option maxRecDepth 1000000 in
theorem bellmanC2 : bellman_chunk 2 = true := by decide!

set_option maxRecDepth 1000000 in
theorem bellmanC3 : bellman_chunk 3 = true := by decide!

set_option maxRecDepth 1000000 in
theorem bellmanC4 : bellman_chunk 4 = true := by decide!

set_option maxRecDepth 1000000 in
theorem bellmanC5 : bellman_chunk 5 = true := by decide!

set_option maxRecDepth 1000000 in
theorem bellmanC6 : bellman_chunk 6 = true := by decide!

set_option maxRecDepth 1000000 in
theorem bellmanC7 : bellman_chunk 7 = true := by decide!

set_option maxRecDepth 1000000 in
theorem bellmanC8 : bellman_chunk 8 = true := by decide!

set_option maxRecDepth 1000000 in
theorem bellmanC9 : bellman_chunk 9 = true := by decide!

set_option maxRecDepth 1000000 in
theorem bellmanC10 : bellman_chunk 10 = true := by decide!

set_option maxRecDepth 1000000 in
theorem bellmanC11 : bellman_chunk 11 = true := by decide!

set_option maxRecDepth 1000000 in
theorem bellmanC12 : bellman_chunk 12 = true := by decide!

set_option maxRecDepth 1000000 in
theorem bellmanC13 : bellman_chunk 13 = true := by decide!

set_option maxRecDepth 1000000 in
theorem bellmanC14 : bellman_chunk 14 = true := by decide!

set_option maxRecDepth 1000000 in
theorem bellmanC15 : bellman_chunk 15 = true := by decide!

set_option maxRecDepth 1000000 in
theorem bellmanC16 : bellman_chunk 16 = true := by decide!

set_option maxRecDepth 1000000 in
theorem bellmanC17 : bellman_chunk 17 = true := by decide!

set_option maxRecDepth 1000000 in
theorem bellmanC18 : bellman_chunk 18 = true := by decide!

set_option maxRecDepth 1000000 in
theorem bellmanC19 : bellman_chunk 19 = true := by decide!

set_option maxRecDepth 1000000 in
theorem bellmanC20 : bellman_chunk 20 = true := by decide!

set_option maxRecDepth 1000000 in
theorem bellmanC21 : bellman_chunk 21 = true := by decide!

set_option maxRecDepth 1000000 in
theorem bellmanC22 : bellman_chunk 22 = true := by decide!

set_option maxRecDepth 1000000 in
theorem bellmanC23 : bellman_chunk 23 = true := by decide!

set_option maxRecDepth 1000000 in
theorem bellmanC24 : bellman_chunk 24 = true := by decide!

set_option maxRecDepth 1000000 in
theorem bellmanC25 : bellman_chunk 25 = true := by decide!

set_option maxRecDepth 1000000 in
theorem bellmanC26 : bellman_chunk 26 = true := by decide!

set_option maxRecDepth 1000000 in
theorem bellmanC27 : bellman_chunk 27 = true := by decide!

set_option maxRecDepth 1000000 in
theorem bellmanC28 : bellman_chunk 28 = true := by decide!

set_option maxRecDepth 1000000 in
theorem bellmanC29 : bellman_chunk 29 = true := by decide!

set_option maxRecDepth 1000000 in
theorem bellmanC30 : bellman_chunk 30 = true := by decide!

set_option maxRecDepth 1000000 in
theorem bellmanC31 : bellman_chunk 31 = true := by decide!

set_option maxRecDepth 1000000 in
theorem bellmanC32 : bellman_chunk 32 = true := by decide!

set_option maxRecDepth 1000000 in
theorem bellmanC33 : bellman_chunk 33 = true := by decide!

set_option maxRecDepth 1000000 in
theorem bellmanC34 : bellman_chunk 34 = true := by decide!

set_option maxRecDepth 1000000 in
theorem bellmanC35 : bellman_chunk 35 = true := by decide!

set_option maxRecDepth 1000000 in
theorem bellmanC36 : bellman_chunk 36 = true := by decide!

set_option maxRecDepth 1000000 in
theorem bellmanC37 : bellman_chunk 37 = true := by decide!

set_option maxRecDepth 1000000 in
theorem bellmanC38 : bellman_chunk 38 = true := by decide!

set_option maxRecDepth 1000000 in
theorem bellmanC39 : bellman_chunk 39 = true := by decide!

set_option maxRecDepth 1000000 in
theorem bellmanC40 : bellman_chunk 40 = true := by decide!

set_option maxRecDepth 1000000 in
theorem bellmanC41 : bellman_chunk 41 = true := by decide!

set_option maxRecDepth 1000000 in
theorem bellmanC42 : bellman_chunk 42 = true := by decide!

set_option maxRecDepth 1000000 in
theorem bellmanC43 : bellman_chunk 43 = true := by decide!

set_option maxRecDepth 1000000 in
theorem bellmanC44 : bellman_chunk 44 = true := by decide!

set_option maxRecDepth 1000000 in
theorem bellmanC45 : bellman_chunk 45 = true := by decide!

set_option maxRecDepth 1000000 in
theorem bellmanC46 : bellman_chunk 46 = true := by decide!

set_option maxRecDepth 1000000 in
theorem bellmanC47 : bellman_chunk 47 = true := by decide!

set_option maxRecDepth 1000000 in
theorem bellmanC48 : bellman_chunk 48 = true := by decide!

set_option maxRecDepth 1000000 in
theorem bellmanC49 : bellman_chunk 49 = true := by decide!

set_option maxRecDepth 1000000 in
theorem bellmanC50 : bellman_chunk 50 = true := by decide!

set_option maxRecDepth 1000000 in
theorem bellmanC51 : bellman_chunk 51 = true := by decide!

set_option maxRecDepth 1000000 in
theorem bellmanC52 : bellman_chunk 52 = true := by decide!

set_option maxRecDepth 1000000 in
theorem bellmanC53 : bellman_chunk 53 = true := by decide!

set_option maxRecDepth 1000000 in
theorem bellmanC54 : bellman_chunk 54 = true := by decide!

set_option maxRecDepth 1000000 in
theorem bellmanC55 : bellman_chunk 55 = true := by decide!

set_option maxRecDepth 1000000 in
theorem bellmanC56 : bellman_chunk 56 = true := by decide!

set_option maxRecDepth 1000000 in
theorem bellmanC57 : bellman_chunk 57 = true := by decide!

set_option maxRecDepth 1000000 in
theorem bellmanC58 : bellman_chunk 58 = true := by decide!

set_option maxRecDepth 1000000 in
theorem bellmanC59 : bellman_chunk 59 = true := by decide!

set_option maxRecDepth 1000000 in
theorem bellmanC60 : bellman_chunk 60 = true := by decide!

set_option maxRecDepth 1000000 in
theorem bellmanC61 : bellman_chunk 61 = true := by decide!

set_option maxRecDepth 1000000 in
theorem bellmanC62 : bellman_chunk 62 = true := by decide!

set_option maxRecDepth 1000000 in
theorem bellmanC63 : bellman_chunk 63 = true := by decide!

set_option maxRecDepth 1000000 in
theorem bellmanC64 : bellman_chunk 64 = true := by decide!

set_option maxRecDepth 1000000 in
theorem bellmanC65 : bellman_chunk 65 = true := by decide!

set_option maxRecDepth 1000000 in
theorem bellmanC66 : bellman_chunk 66 = true := by decide!

set_option maxRecDepth 1000000 in
theorem bellmanC67 : bellman_chunk 67 = true := by decide!

set_option maxRecDepth 1000000 in
theorem bellmanC68 : bellman_chunk 68 = true := by decide!

set_option maxRecDepth 1000000 in
theorem bellmanC69 : bellman_chunk 69 = true := by decide!

set_option maxRecDepth 1000000 in
theorem bellmanC70 : bellman_chunk 70 = true := by decide!

set_option maxRecDepth 1000000 in
theorem bellmanC71 : bellman_chunk 71 = true := by decide!

set_option maxRecDepth 1000000 in
theorem bellmanC72 : bellman_chunk 72 = true := by decide!

set_option maxRecDepth 1000000 in
theorem bellmanC73 : bellman_chunk 73 = true := by decide!

set_option maxRecDepth 1000000 in
theorem bellmanC74 : bellman_chunk 74 = true := by decide!

set_option maxRecDepth 1000000 in
theorem bellmanC75 : bellman_chunk 75 = true := by decide!

set_option maxRecDepth 1000000 in
theorem bellmanC76 : bellman_chunk 76 = true := by decide!

set_option maxRecDepth 1000000 in
theorem bellmanC77 : bellman_chunk 77 = true := by decide!

set_option maxRecDepth 1000000 in
theorem bellmanC78 : bellman_chunk 78 = true := by decide!

set_option maxRecDepth 1000000 in
theorem bellmanC79 : bellman_chunk 79 = true := by decide!

set_option maxRecDepth 1000000 in
theorem bellmanC80 : bellman_chunk 80 = true := by decide!


theorem bellman_chunk_true : ∀ k, k < 81 → bellman_chunk k = true := by
  intro k hk
  interval_cases k
  exacts [bellmanC0, bellmanC1, bellmanC2, bellmanC3, bellmanC4, bellmanC5, bellmanC6, bellmanC7, bellmanC8, bellmanC9, bellmanC10, bellmanC11, bellmanC12, bellmanC13, bellmanC14, bellmanC15, bellmanC16, bellmanC17, bellmanC18, bellmanC19, bellmanC20, bellmanC21, bellmanC22, bellmanC23, bellmanC24, bellmanC25, bellmanC26, bellmanC27, bellmanC28, bellmanC29, bellmanC30, bellmanC31, bellmanC32, bellmanC33, bellmanC34, bellmanC35, bellmanC36, bellmanC37, bellmanC38, bellmanC39, bellmanC40, bellmanC41, bellmanC42, bellmanC43, bellmanC44, bellmanC45, bellmanC46, bellmanC47, bellmanC48, bellmanC49, bellmanC50, bellmanC51, bellmanC52, bellmanC53, bellmanC54, bellmanC55, bellmanC56, bellmanC57, bellmanC58, bellmanC59, bellmanC60, bellmanC61, bellmanC62, bellmanC63, bellmanC64, bellmanC65, bellmanC66, bellmanC67, bellmanC68, bellmanC69, bellmanC70, bellmanC71, bellmanC72, bellmanC73, bellmanC74, bellmanC75, bellmanC76, bellmanC77, bellmanC78, bellmanC79, bellmanC80]

/-- The tabulated values satisfy the minimax recurrence at every code. -/
theorem vT_step (c : Nat) (hc : c < 19683) (im : Bool) (ai : Nat)
    (hai : ai = 1 ∨ ai = 2) : vT c im ai = stepT c im ai := by
  have hk : c / 243 < 81 := by omega
  have h := bellman_chunk_true (c / 243) hk
  rw [bellman_chunk, List.all_eq_true] at h
  have hc2 : c ∈ List.range' (243 * (c / 243)) 243 := by
    rw [List.mem_range'_1]
    omega
  have hb := h c hc2
  rw [bellmanAt] at hb
  simp only [Bool.and_eq_true, beq_iff_eq] at hb
  rcases hai with h1 | h1 <;> subst h1 <;> cases im
  · exact hb.1.1.2
  · exact hb.1.1.1
  · exact hb.2
  · exact hb.1.2

/-- The number of empty cells of a board. -/
def emptyCount (b : Board) : Nat := b.countP (fun c => c.isNone)

theorem emptyCount_set (b : Board) : ∀ (i : Nat) (p : Player), i < b.length →
    b.getD i none = none → emptyCount (b.set i (some p)) + 1 = emptyCount b := by
  induction b with
  | nil => intro i p h; simp at h
  | cons c t ih =>
    intro i p hlen hvac
    cases i with
    | zero =>
      simp only [List.getD_cons_zero] at hvac
      subst hvac
      simp [emptyCount, List.countP_cons]
    | succ j =>
      simp only [List.getD_cons_succ] at hvac
      simp only [List.length_cons, Nat.succ_lt_succ_iff] at hlen
      have h := ih j p hlen hvac
      simp only [List.set_cons_succ, emptyCount, List.countP_cons] at h ⊢
      omega

theorem emptyCount_pos (b : Board) (i : Nat) (hi : i < b.length)
    (hvac : b.getD i none = none) : 1 ≤ emptyCount b := by
  have h := emptyCount_set b i Player.X hi hvac
  omega

/-- The encoding of a board is below `3 ^ length`. -/
theorem enc_lt (b : Board) : enc b < 3 ^ b.length := by
  induction b with
  | nil => simp [enc_nil]
  | cons c t ih =>
    rw [enc_cons, List.length_cons, pow_succ]
    have := cellCode_lt c
    nlinarith

/-- Correspondence of the maximizing fold of `stepT` and `minimaxS`. -/
theorem foldMax_vT (n : Nat) (ai : Player) (b : Board) (hb : b.length = 9)
    (ih : ∀ (b' : Board) (im' : Bool), b'.length = 9 → emptyCount b' < n →
      ((vT (enc b') im' (pCode ai) : Nat) : Int) = (minimaxS n b' im' ai).1 + 2)
    (hec : emptyCount b ≤ n) :
    ∀ l : List Nat, (∀ i ∈ l, i < 9) → ∀ (aI : Int) (aN : Nat), (aN : Int) = aI + 2 →
    ((l.foldl (fun acc i =>
        Nat.max (cond (enc b / 3 ^ i % 3 == 0)
          (vT (enc b + pCode ai * 3 ^ i) false (pCode ai)) 0) acc) aN : Nat) : Int)
      = (l.foldl (fun acc i =>
          match acc.2.getD i none with
          | none =>
            let r := minimaxS n (acc.2.set i (some ai)) false ai
            (max r.1 acc.1, r.2.set i none)
          | some _ => acc) (aI, b)).1 + 2 := by
  intro l
  induction l with
  | nil => intro _ aI aN hrel; simpa using hrel
  | cons j t iht =>
    intro hmem aI aN hrel
    have hj9 : j < 9 := hmem j (List.mem_cons_self j t)
    have hmem2 : ∀ i ∈ t, i < 9 := fun i hi => hmem i (List.mem_cons_of_mem j hi)
    rw [List.foldl_cons, List.foldl_cons]
    cases hcell : b.getD j none with
    | some q =>
      have hd : (enc b / 3 ^ j % 3 == 0) = false := by
        rw [enc_digit b j, hcell]; cases q <;> rfl
      simp only [hd, Bool.cond_false, Nat.max_def, hcell]
      rw [if_pos (Nat.zero_le aN)]
      exact iht hmem2 aI aN hrel
    | none =>
      have hjlen : j < b.length := by rw [hb]; exact hj9
      have hd : (enc b / 3 ^ j % 3 == 0) = true := by rw [enc_digit b j, hcell]; rfl
      have hset : enc b + pCode ai * 3 ^ j = enc (b.set j (some ai)) :=
        (enc_set b j ai hjlen hcell).symm
      have hlen : (b.set j (some ai)).length = 9 := by rw [List.length_set, hb]
      have hecs : emptyCount (b.set j (some ai)) < n := by
        have h := emptyCount_set b j ai hjlen hcell
        have h2 := emptyCount_pos b j hjlen hcell
        omega
      have hrest := minimaxS_restore n (b.set j (some ai)) false ai
      simp only [hd, cond_true, hcell, hset, hrest, List.set_set]
      rw [set_none_of_getD_none b j hcell]
      apply iht hmem2
      rw [Nat.cast_max, ih (b.set j (some ai)) false hlen hecs, hrel, max_add_add_right]

/-- Correspondence of the minimizing fold of `stepT` and `minimaxS`. -/
theorem foldMin_vT (n : Nat) (ai : Player) (b : Board) (hb : b.length = 9)
    (ih : ∀ (b' : Board) (im' : Bool), b'.length = 9 → emptyCount b' < n →
      ((vT (enc b') im' (pCode ai) : Nat) : Int) = (minimaxS n b' im' ai).1 + 2)
    (hec : emptyCount b ≤ n) :
    ∀ l : List Nat, (∀ i ∈ l, i < 9) → ∀ (aI : Int) (aN : Nat), (aN : Int) = aI + 2 →
      aN ≤ 4 →
    ((l.foldl (fun acc i =>
        Nat.min (cond (enc b / 3 ^ i % 3 == 0)
          (vT (enc b + (3 - pCode ai) * 3 ^ i) true (pCode ai)) 4) acc) aN : Nat) : Int)
      = (l.foldl (fun acc i =>
          match acc.2.getD i none with
          | none =>
            let r := minimaxS n (acc.2.set i (some (opponent ai))) true ai
            (min r.1 acc.1, r.2.set i none)
          | some _ => acc) (aI, b)).1 + 2 := by
  intro l
  induction l with
  | nil => intro _ aI aN hrel _; simpa using hrel
  | cons j t iht =>
    intro hmem aI aN hrel haN
    have hj9 : j < 9 := hmem j (List.mem_cons_self j t)
    have hmem2 : ∀ i ∈ t, i < 9 := fun i hi => hmem i (List.mem_cons_of_mem j hi)
    rw [List.foldl_cons, List.foldl_cons]
    cases hcell : b.getD j none with
    | some q =>
      have hd : (enc b / 3 ^ j % 3 == 0) = false := by
        rw [enc_digit b j, hcell]; cases q <;> rfl
      simp only [hd, Bool.cond_false, hcell, Nat.min_def]
      split
      · have haN4 : aN = 4 := le_antisymm haN (by assumption)
        subst haN4
        exact iht hmem2 aI 4 hrel le_rfl
      · exact iht hmem2 aI aN hrel haN
    | none =>
      have hjlen : j < b.length := by rw [hb]; exact hj9
      have hd : (enc b / 3 ^ j % 3 == 0) = true := by rw [enc_digit b j, hcell]; rfl
      have hset : enc b + (3 - pCode ai) * 3 ^ j = enc (b.set j (some (opponent ai))) := by
        rw [← pCode_opponent]
        exact (enc_set b j (opponent ai) hjlen hcell).symm
      have hlen : (b.set j (some (opponent ai))).length = 9 := by rw [List.length_set, hb]
      have hecs : emptyCount (b.set j (some (opponent ai))) < n := by
        have h := emptyCount_set b j (opponent ai) hjlen hcell
        have h2 := emptyCount_pos b j hjlen hcell
        omega
      have hrest := minimaxS_restore n (b.set j (some (opponent ai))) true ai
      simp only [hd, cond_true, hcell, hset, hrest, List.set_set]
      rw [set_none_of_getD_none b j hcell]
      apply iht hmem2
      · rw [Nat.cast_min, ih (b.set j (some (opponent ai))) true hlen hecs, hrel,
          min_add_add_right]
      · exact le_trans (Nat.min_le_right _ _) haN

set_option maxHeartbeats 1000000 in
/-- The verified table gives exactly the `_minimax` score (shifted by 2)
on 9-cell boards, for any fuel exceeding the number of empty cells. -/
theorem minimaxS_eq_vT : ∀ (fuel : Nat) (b : Board) (im : Bool) (ai : Player),
    b.length = 9 → emptyCount b < fuel →
    ((vT (enc b) im (pCode ai) : Nat) : Int) = (minimaxS fuel b im ai).1 + 2 := by
  intro fuel
  induction fuel with
  | zero => intro b im ai hb hec; omega
  | succ n ih =>
    intro b im ai hb hec
    have hlt : enc b < 19683 := by
      have h := enc_lt b
      rw [hb] at h
      norm_num at h
      exact h
    have hai : pCode ai = 1 ∨ pCode ai = 2 := by
      cases ai
      · exact Or.inl rfl
      · exact Or.inr rfl
    rw [vT_step (enc b) hlt im (pCode ai) hai, stepT, minimaxS, winnerMark_enc]
    cases hw : check_winner b with
    | some p =>
      simp only [cellCode_some_eq_pCode, pCode_ne_zero, cond_true, pCode_beq]
      by_cases hpa : p = ai
      · simp [hpa]
      · simp [hpa]
    | none =>
      simp only [show cellCode none = 0 from rfl, show ((0 : Nat) != 0) = false from rfl,
        cond_false]
      cases hfull : b.contains none with
      | false =>
        rw [show fullN (enc b) = true by rw [fullN_enc b hb, hfull]; rfl, Bool.cond_true,
          if_pos rfl]
        norm_num
      | true =>
        rw [show fullN (enc b) = false by rw [fullN_enc b hb, hfull]; rfl, Bool.cond_false,
          if_neg (show ¬(true = false) by simp)]
        have hrange : List.range 9 = [0, 1, 2, 3, 4, 5, 6, 7, 8] := rfl
        have hmem9 : ∀ i ∈ [0, 1, 2, 3, 4, 5, 6, 7, 8], i < 9 := by decide
        have hec2 : emptyCount b ≤ n := by omega
        cases im with
        | true =>
          rw [Bool.cond_true, if_pos rfl, hrange]
          exact foldMax_vT n ai b hb (fun b' im' h1 h2 => ih b' im' ai h1 h2) hec2
            [0, 1, 2, 3, 4, 5, 6, 7, 8] hmem9 (-2) 0 (by norm_num)
        | false =>
          rw [Bool.cond_false, if_neg (show ¬(false = true) by simp), hrange]
          exact foldMin_vT n ai b hb (fun b' im' h1 h2 => ih b' im' ai h1 h2) hec2
            [0, 1, 2, 3, 4, 5, 6, 7, 8] hmem9 2 4 (by norm_num) le_rfl

/-- Bridge from `moveScore` on a concrete 9-cell board to the table. -/
theorem moveScore_eq (b : Board) (p : Player) (m : Nat) (hb : b.length = 9)
    (hm : b.getD m none = none) (hmlt : m < 9) :
    moveScore b p m =
      ((vT (enc b + pCode p * 3 ^ m) false (pCode p) : Nat) : Int) - 2 := by
  unfold moveScore
  have hmlen : m < b.length := by rw [hb]; exact hmlt
  have hlen : (b.set m (some p)).length = 9 := by rw [List.length_set, hb]
  have hecs : emptyCount (b.set m (some p)) < 9 := by
    have h1 := emptyCount_set b m p hmlen hm
    have h2 : emptyCount b ≤ b.length := List.countP_le_length _
    omega
  have h := minimaxS_eq_vT 9 (b.set m (some p)) false p hlen hecs
  rw [enc_set b m p hmlen hm] at h
  rw [hlen]
  omega

theorem sc_0_0 : moveScore [none, none, none, none, none, none, none, none, none] Player.X 0 = 0 := by
  rw [moveScore_eq [none, none, none, none, none, none, none, none, none] Player.X 0 rfl rfl (by norm_num), show pCode Player.X = 1 from rfl,
    show enc [none, none, none, none, none, none, none, none, none] + 1 * 3 ^ 0 = 1 by decide,
    show vT 1 false 1 = 2 from by decide!]
  decide

theorem sc_0_1 : moveScore [none, none, none, none, none, none, none, none, none] Player.X 1 = 0 := by
  rw [moveScore_eq [none, none, none, none, none, none, none, none, none] Player.X 1 rfl rfl (by norm_num), show pCode Player.X = 1 from rfl,
    show enc [none, none, none, none, none, none, none, none, none] + 1 * 3 ^ 1 = 3 by decide,
    show vT 3 false 1 = 2 from by decide!]
  decide

theorem sc_0_2 : moveScore [none, none, none, none, none, none, none, none, none] Player.X 2 = 0 := by
  rw [moveScore_eq [none, none, none, none, none, none, none, none, none] Player.X 2 rfl rfl (by norm_num), show pCode Player.X = 1 from rfl,
    show enc [none, none, none, none, none, none, none, none, none] + 1 * 3 ^ 2 = 9 by decide,
    show vT 9 false 1 = 2 from by decide!]
  decide

theorem sc_0_3 : moveScore [none, none, none, none, none, none, none, none, none] Player.X 3 = 0 := by
  rw [moveScore_eq [none, none, none, none, none, none, none, none, none] Player.X 3 rfl rfl (by norm_num), show pCode Player.X = 1 from rfl,
    show enc [none, none, none, none, none, none, none, none, none] + 1 * 3 ^ 3 = 27 by decide,
    show vT 27 false 1 = 2 from by decide!]
  decide

theorem sc_0_4 : moveScore [none, none, none, none, none, none, none, none, none] Player.X 4 = 0 := by
  rw [moveScore_eq [none, none, none, none, none, none, none, none, none] Player.X 4 rfl rfl (by norm_num), show pCode Player.X = 1 from rfl,
    show enc [none, none, none, none, none, none, none, none, none] + 1 * 3 ^ 4 = 81 by decide,
    show vT 81 false 1 = 2 from by decide!]
  decide

theorem sc_0_5 : moveScore [none, none, none, none, none, none, none, none, none] Player.X 5 = 0 := by
  rw [moveScore_eq [none, none, none, none, none, none, none, none, none] Player.X 5 rfl rfl (by norm_num), show pCode Player.X = 1 from rfl,
    show enc [none, none, none, none, none, none, none, none, none] + 1 * 3 ^ 5 = 243 by decide,
    show vT 243 false 1 = 2 from by decide!]
  decide

theorem sc_0_6 : moveScore [none, none, none, none, none, none, none, none, none] Player.X 6 = 0 := by
  rw [moveScore_eq [none, none, none, none, none, none, none, none, none] Player.X 6 rfl rfl (by norm_num), show pCode Player.X = 1 from rfl,
    show enc [none, none, none, none, none, none, none, none, none] + 1 * 3 ^ 6 = 729 by decide,
    show vT 729 false 1 = 2 from by decide!]
  decide

theorem sc_0_7 : moveScore [none, none, none, none, none, none, none, none, none] Player.X 7 = 0 := by
  rw [moveScore_eq [none, none, none, none, none, none, none, none, none] Player.X 7 rfl rfl (by norm_num), show pCode Player.X = 1 from rfl,
    show enc [none, none, none, none, none, none, none, none, none] + 1 * 3 ^ 7 = 2187 by decide,
    show vT 2187 false 1 = 2 from by decide!]
  decide

theorem sc_0_8 : moveScore [none, none, none, none, none, none, none, none, none] Player.X 8 = 0 := by
  rw [moveScore_eq [none, none, none, none, none, none, none, none, none] Player.X 8 rfl rfl (by norm_num), show pCode Player.X = 1 from rfl,
    show enc [none, none, none, none, none, none, none, none, none] + 1 * 3 ^ 8 = 6561 by decide,
    show vT 6561 false 1 = 2 from by decide!]
  decide


theorem sc_1_1 : moveScore [some Player.X, none, none, none, none, none, none, none, none] Player.O 1 = -1 := by
  rw [moveScore_eq [some Player.X, none, none, none, none, none, none, none, none] Player.O 1 rfl rfl (by norm_num), show pCode Player.O = 2 from rfl,
    show enc [some Player.X, none, none, none, none, none, none, none, none] + 2 * 3 ^ 1 = 7 by decide,
    show vT 7 false 2 = 1 from by decide!]
  decide

theorem sc_1_2 : moveScore [some Player.X, none, none, none, none, none, none, none, none] Player.O 2 = -1 := by
  rw [moveScore_eq [some Player.X, none, none, none, none, none, none, none, none] Player.O 2 rfl rfl (by norm_num), show pCode Player.O = 2 from rfl,
    show enc [some Player.X, none, none, none, none, none, none, none, none] + 2 * 3 ^ 2 = 19 by decide,
    show vT 19 false 2 = 1 from by decide!]
  decide

theorem sc_1_3 : moveScore [some Player.X, none, none, none, none, none, none, none, none] Player.O 3 = -1 := by
  rw [moveScore_eq [some Player.X, none, none, none, none, none, none, none, none] Player.O 3 rfl rfl (by norm_num), show pCode Player.O = 2 from rfl,
    show enc [some Player.X, none, none, none, none, none, none, none, none] + 2 * 3 ^ 3 = 55 by decide,
    show vT 55 false 2 = 1 from by decide!]
  decide

theorem sc_1_4 : moveScore [some Player.X, none, none, none, none, none, none, none, none] Player.O 4 = 0 := by
  rw [moveScore_eq [some Player.X, none, none, none, none, none, none, none, none] Player.O 4 rfl rfl (by norm_num), show pCode Player.O = 2 from rfl,
    show enc [some Player.X, none, none, none, none, none, none, none, none] + 2 * 3 ^ 4 = 163 by decide,
    show vT 163 false 2 = 2 from by decide!]
  decide

theorem sc_1_5 : moveScore [some Player.X, none, none, none, none, none, none, none, none] Player.O 5 = -1 := by
  rw [moveScore_eq [some Player.X, none, none, none, none, none, none, none, none] Player.O 5 rfl rfl (by norm_num), show pCode Player.O = 2 from rfl,
    show enc [some Player.X, none, none, none, none, none, none, none, none] + 2 * 3 ^ 5 = 487 by decide,
    show vT 487 false 2 = 1 from by decide!]
  decide

theorem sc_1_6 : moveScore [some Player.X, none, none, none, none, none, none, none, none] Player.O 6 = -1 := by
  rw [moveScore_eq [some Player.X, none, none, none, none, none, none, none, none] Player.O 6 rfl rfl (by norm_num), show pCode Player.O = 2 from rfl,
    show enc [some Player.X, none, none, none, none, none, none, none, none] + 2 * 3 ^ 6 = 1459 by decide,
    show vT 1459 false 2 = 1 from by decide!]
  decide

theorem sc_1_7 : moveScore [some Player.X, none, none, none, none, none, none, none, none] Player.O 7 = -1 := by
  rw [moveScore_eq [some Player.X, none, none, none, none, none, none, none, none] Player.O 7 rfl rfl (by norm_num), show pCode Player.O = 2 from rfl,
    show enc [some Player.X, none, none, none, none, none, none, none, none] + 2 * 3 ^ 7 = 4375 by decide,
    show vT 4375 false 2 = 1 from by decide!]
  decide

theorem sc_1_8 : moveScore [some Player.X, none, none, none, none, none, none, none, none] Player.O 8 = -1 := by
  rw [moveScore_eq [some Player.X, none, none, none, none, none, none, none, none] Player.O 8 rfl rfl (by norm_num), show pCode Player.O = 2 from rfl,
    show enc [some Player.X, none, none, none, none, none, none, none, none] + 2 * 3 ^ 8 = 13123 by decide,
    show vT 13123 false 2 = 1 from by decide!]
  decide


theorem sc_2_1 : moveScore [some Player.X, none, none, none, some Player.O, none, none, none, none] Player.X 1 = 0 := by
  rw [moveScore_eq [some Player.X, none, none, none, some Player.O, none, none, none, none] Player.X 1 rfl rfl (by norm_num), show pCode Player.X = 1 from rfl,
    show enc [some Player.X, none, none, none, some Player.O, none, none, none, none] + 1 * 3 ^ 1 = 166 by decide,
    show vT 166 false 1 = 2 from by decide!]
  decide

theorem sc_2_2 : moveScore [some Player.X, none, none, none, some Player.O, none, none, none, none] Player.X 2 = 0 := by
  rw [moveScore_eq [some Player.X, none, none, none, some Player.O, none, none, none, none] Player.X 2 rfl rfl (by norm_num), show pCode Player.X = 1 from rfl,
    show enc [some Player.X, none, none, none, some Player.O, none, none, none, none] + 1 * 3 ^ 2 = 172 by decide,
    show vT 172 false 1 = 2 from by decide!]
  decide

theorem sc_2_3 : moveScore [some Player.X, none, none, none, some Player.O, none, none, none, none] Player.X 3 = 0 := by
  rw [moveScore_eq [some Player.X, none, none, none, some Player.O, none, none, none, none] Player.X 3 rfl rfl (by norm_num), show pCode Player.X = 1 from rfl,
    show enc [some Player.X, none, none, none, some Player.O, none, none, none, none] + 1 * 3 ^ 3 = 190 by decide,
    show vT 190 false 1 = 2 from by decide!]
  decide

theorem sc_2_5 : moveScore [some Player.X, none, none, none, some Player.O, none, none, none, none] Player.X 5 = 0 := by
  rw [moveScore_eq [some Player.X, none, none, none, some Player.O, none, none, none, none] Player.X 5 rfl rfl (by norm_num), show pCode Player.X = 1 from rfl,
    show enc [some Player.X, none, none, none, some Player.O, none, none, none, none] + 1 * 3 ^ 5 = 406 by decide,
    show vT 406 false 1 = 2 from by decide!]
  decide

theorem sc_2_6 : moveScore [some Player.X, none, none, none, some Player.O, none, none, none, none] Player.X 6 = 0 := by
  rw [moveScore_eq [some Player.X, none, none, none, some Player.O, none, none, none, none] Player.X 6 rfl rfl (by norm_num), show pCode Player.X = 1 from rfl,
    show enc [some Player.X, none, none, none, some Player.O, none, none, none, none] + 1 * 3 ^ 6 = 892 by decide,
    show vT 892 false 1 = 2 from by decide!]
  decide

theorem sc_2_7 : moveScore [some Player.X, none, none, none, some Player.O, none, none, none, none] Player.X 7 = 0 := by
  rw [moveScore_eq [some Player.X, none, none, none, some Player.O, none, none, none, none] Player.X 7 rfl rfl (by norm_num), show pCode Player.X = 1 from rfl,
    show enc [some Player.X, none, none, none, some Player.O, none, none, none, none] + 1 * 3 ^ 7 = 2350 by decide,
    show vT 2350 false 1 = 2 from by decide!]
  decide

theorem sc_2_8 : moveScore [some Player.X, none, none, none, some Player.O, none, none, none, none] Player.X 8 = 0 := by
  rw [moveScore_eq [some Player.X, none, none, none, some Player.O, none, none, none, none] Player.X 8 rfl rfl (by norm_num), show pCode Player.X = 1 from rfl,
    show enc [some Player.X, none, none, none, some Player.O, none, none, none, none] + 1 * 3 ^ 8 = 6724 by decide,
    show vT 6724 false 1 = 2 from by decide!]
  decide


theorem sc_3_2 : moveScore [some Player.X, some Player.X, none, none, some Player.O, none, none, none, none] Player.O 2 = 0 := by
  rw [moveScore_eq [some Player.X, some Player.X, none, none, some Player.O, none, none, none, none] Player.O 2 rfl rfl (by norm_num), show pCode Player.O = 2 from rfl,
    show enc [some Player.X, some Player.X, none, none, some Player.O, none, none, none, none] + 2 * 3 ^ 2 = 184 by decide,
    show vT 184 false 2 = 2 from by decide!]
  decide

theorem sc_3_3 : moveScore [some Player.X, some Player.X, none, none, some Player.O, none, none, none, none] Player.O 3 = -1 := by
  rw [moveScore_eq [some Player.X, some Player.X, none, none, some Player.O, none, none, none, none] Player.O 3 rfl rfl (by norm_num), show pCode Player.O = 2 from rfl,
    show enc [some Player.X, some Player.X, none, none, some Player.O, none, none, none, none] + 2 * 3 ^ 3 = 220 by decide,
    show vT 220 false 2 = 1 from by decide!]
  decide

theorem sc_3_5 : moveScore [some Player.X, some Player.X, none, none, some Player.O, none, none, none, none] Player.O 5 = -1 := by
  rw [moveScore_eq [some Player.X, some Player.X, none, none, some Player.O, none, none, none, none] Player.O 5 rfl rfl (by norm_num), show pCode Player.O = 2 from rfl,
    show enc [some Player.X, some Player.X, none, none, some Player.O, none, none, none, none] + 2 * 3 ^ 5 = 652 by decide,
    show vT 652 false 2 = 1 from by decide!]
  decide

theorem sc_3_6 : moveScore [some Player.X, some Player.X, none, none, some Player.O, none, none, none, none] Player.O 6 = -1 := by
  rw [moveScore_eq [some Player.X, some Player.X, none, none, some Player.O, none, none, none, none] Player.O 6 rfl rfl (by norm_num), show pCode Player.O = 2 from rfl,
    show enc [some Player.X, some Player.X, none, none, some Player.O, none, none, none, none] + 2 * 3 ^ 6 = 1624 by decide,
    show vT 1624 false 2 = 1 from by decide!]
  decide

theorem sc_3_7 : moveScore [some Player.X, some Player.X, none, none, some Player.O, none, none, none, none] Player.O 7 = -1 := by
  rw [moveScore_eq [some Player.X, some Player.X, none, none, some Player.O, none, none, none, none] Player.O 7 rfl rfl (by norm_num), show pCode Player.O = 2 from rfl,
    show enc [some Player.X, some Player.X, none, none, some Player.O, none, none, none, none] + 2 * 3 ^ 7 = 4540 by decide,
    show vT 4540 false 2 = 1 from by decide!]
  decide

theorem sc_3_8 : moveScore [some Player.X, some Player.X, none, none, some Player.O, none, none, none, none] Player.O 8 = -1 := by
  rw [moveScore_eq [some Player.X, some Player.X, none, none, some Player.O, none, none, none, none] Player.O 8 rfl rfl (by norm_num), show pCode Player.O = 2 from rfl,
    show enc [some Player.X, some Player.X, none, none, some Player.O, none, none, none, none] + 2 * 3 ^ 8 = 13288 by decide,
    show vT 13288 false 2 = 1 from by decide!]
  decide


theorem sc_4_3 : moveScore [some Player.X, some Player.X, some Player.O, none, some Player.O, none, none, none, none] Player.X 3 = -1 := by
  rw [moveScore_eq [some Player.X, some Player.X, some Player.O, none, some Player.O, none, none, none, none] Player.X 3 rfl rfl (by norm_num), show pCode Player.X = 1 from rfl,
    show enc [some Player.X, some Player.X, some Player.O, none, some Player.O, none, none, none, none] + 1 * 3 ^ 3 = 211 by decide,
    show vT 211 false 1 = 1 from by decide!]
  decide

theorem sc_4_5 : moveScore [some Player.X, some Player.X, some Player.O, none, some Player.O, none, none, none, none] Player.X 5 = -1 := by
  rw [moveScore_eq [some Player.X, some Player.X, some Player.O, none, some Player.O, none, none, none, none] Player.X 5 rfl rfl (by norm_num), show pCode Player.X = 1 from rfl,
    show enc [some Player.X, some Player.X, some Player.O, none, some Player.O, none, none, none, none] + 1 * 3 ^ 5 = 427 by decide,
    show vT 427 false 1 = 1 from by decide!]
  decide

theorem sc_4_6 : moveScore [some Player.X, some Player.X, some Player.O, none, some Player.O, none, none, none, none] Player.X 6 = 0 := by
  rw [moveScore_eq [some Player.X, some Player.X, some Player.O, none, some Player.O, none, none, none, none] Player.X 6 rfl rfl (by norm_num), show pCode Player.X = 1 from rfl,
    show enc [some Player.X, some Player.X, some Player.O, none, some Player.O, none, none, none, none] + 1 * 3 ^ 6 = 913 by decide,
    show vT 913 false 1 = 2 from by decide!]
  decide

theorem sc_4_7 : moveScore [some Player.X, some Player.X, some Player.O, none, some Player.O, none, none, none, none] Player.X 7 = -1 := by
  rw [moveScore_eq [some Player.X, some Player.X, some Player.O, none, some Player.O, none, none, none, none] Player.X 7 rfl rfl (by norm_num), show pCode Player.X = 1 from rfl,
    show enc [some Player.X, some Player.X, some Player.O, none, some Player.O, none, none, none, none] + 1 * 3 ^ 7 = 2371 by decide,
    show vT 2371 false 1 = 1 from by decide!]
  decide

theorem sc_4_8 : moveScore [some Player.X, some Player.X, some Player.O, none, some Player.O, none, none, none, none] Player.X 8 = -1 := by
  rw [moveScore_eq [some Player.X, some Player.X, some Player.O, none, some Player.O, none, none, none, none] Player.X 8 rfl rfl (by norm_num), show pCode Player.X = 1 from rfl,
    show enc [some Player.X, some Player.X, some Player.O, none, some Player.O, none, none, none, none] + 1 * 3 ^ 8 = 6745 by decide,
    show vT 6745 false 1 = 1 from by decide!]
  decide


theorem sc_5_3 : moveScore [some Player.X, some Player.X, some Player.O, none, some Player.O, none, some Player.X, none, none] Player.O 3 = 0 := by
  rw [moveScore_eq [some Player.X, some Player.X, some Player.O, none, some Player.O, none, some Player.X, none, none] Player.O 3 rfl rfl (by norm_num), show pCode Player.O = 2 from rfl,
    show enc [some Player.X, some Player.X, some Player.O, none, some Player.O, none, some Player.X, none, none] + 2 * 3 ^ 3 = 967 by decide,
    show vT 967 false 2 = 2 from by decide!]
  decide

theorem sc_5_5 : moveScore [some Player.X, some Player.X, some Player.O, none, some Player.O, none, some Player.X, none, none] Player.O 5 = -1 := by
  rw [moveScore_eq [some Player.X, some Player.X, some Player.O, none, some Player.O, none, some Player.X, none, none] Player.O 5 rfl rfl (by norm_num), show pCode Player.O = 2 from rfl,
    show enc [some Player.X, some Player.X, some Player.O, none, some Player.O, none, some Player.X, none, none] + 2 * 3 ^ 5 = 1399 by decide,
    show vT 1399 false 2 = 1 from by decide!]
  decide

theorem sc_5_7 : moveScore [some Player.X, some Player.X, some Player.O, none, some Player.O, none, some Player.X, none, none] Player.O 7 = -1 := by
  rw [moveScore_eq [some Player.X, some Player.X, some Player.O, none, some Player.O, none, some Player.X, none, none] Player.O 7 rfl rfl (by norm_num), show pCode Player.O = 2 from rfl,
    show enc [some Player.X, some Player.X, some Player.O, none, some Player.O, none, some Player.X, none, none] + 2 * 3 ^ 7 = 5287 by decide,
    show vT 5287 false 2 = 1 from by decide!]
  decide

theorem sc_5_8 : moveScore [some Player.X, some Player.X, some Player.O, none, some Player.O, none, some Player.X, none, none] Player.O 8 = -1 := by
  rw [moveScore_eq [some Player.X, some Player.X, some Player.O, none, some Player.O, none, some Player.X, none, none] Player.O 8 rfl rfl (by norm_num), show pCode Player.O = 2 from rfl,
    show enc [some Player.X, some Player.X, some Player.O, none, some Player.O, none, some Player.X, none, none] + 2 * 3 ^ 8 = 14035 by decide,
    show vT 14035 false 2 = 1 from by decide!]
  decide


theorem sc_6_5 : moveScore [some Player.X, some Player.X, some Player.O, some Player.O, some Player.O, none, some Player.X, none, none] Player.X 5 = 0 := by
  rw [moveScore_eq [some Player.X, some Player.X, some Player.O, some Player.O, some Player.O, none, some Player.X, none, none] Player.X 5 rfl rfl (by norm_num), show pCode Player.X = 1 from rfl,
    show enc [some Player.X, some Player.X, some Player.O, some Player.O, some Player.O, none, some Player.X, none, none] + 1 * 3 ^ 5 = 1210 by decide,
    show vT 1210 false 1 = 2 from by decide!]
  decide

theorem sc_6_7 : moveScore [some Player.X, some Player.X, some Player.O, some Player.O, some Player.O, none, some Player.X, none, none] Player.X 7 = -1 := by
  rw [moveScore_eq [some Player.X, some Player.X, some Player.O, some Player.O, some Player.O, none, some Player.X, none, none] Player.X 7 rfl rfl (by norm_num), show pCode Player.X = 1 from rfl,
    show enc [some Player.X, some Player.X, some Player.O, some Player.O, some Player.O, none, some Player.X, none, none] + 1 * 3 ^ 7 = 3154 by decide,
    show vT 3154 false 1 = 1 from by decide!]
  decide

theorem sc_6_8 : moveScore [some Player.X, some Player.X, some Player.O, some Player.O, some Player.O, none, some Player.X, none, none] Player.X 8 = -1 := by
  rw [moveScore_eq [some Player.X, some Player.X, some Player.O, some Player.O, some Player.O, none, some Player.X, none, none] Player.X 8 rfl rfl (by norm_num), show pCode Player.X = 1 from rfl,
    show enc [some Player.X, some Player.X, some Player.O, some Player.O, some Player.O, none, some Player.X, none, none] + 1 * 3 ^ 8 = 7528 by decide,
    show vT 7528 false 1 = 1 from by decide!]
  decide


theorem sc_7_7 : moveScore [some Player.X, some Player.X, some Player.O, some Player.O, some Player.O, some Player.X, some Player.X, none, none] Player.O 7 = 0 := by
  rw [moveScore_eq [some Player.X, some Player.X, some Player.O, some Player.O, some Player.O, some Player.X, some Player.X, none, none] Player.O 7 rfl rfl (by norm_num), show pCode Player.O = 2 from rfl,
    show enc [some Player.X, some Player.X, some Player.O, some Player.O, some Player.O, some Player.X, some Player.X, none, none] + 2 * 3 ^ 7 = 5584 by decide,
    show vT 5584 false 2 = 2 from by decide!]
  decide

theorem sc_7_8 : moveScore [some Player.X, some Player.X, some Player.O, some Player.O, some Player.O, some Player.X, some Player.X, none, none] Player.O 8 = 0 := by
  rw [moveScore_eq [some Player.X, some Player.X, some Player.O, some Player.O, some Player.O, some Player.X, some Player.X, none, none] Player.O 8 rfl rfl (by norm_num), show pCode Player.O = 2 from rfl,
    show enc [some Player.X, some Player.X, some Player.O, some Player.O, some Player.O, some Player.X, some Player.X, none, none] + 2 * 3 ^ 8 = 14332 by decide,
    show vT 14332 false 2 = 2 from by decide!]
  decide


theorem sc_8_8 : moveScore [some Player.X, some Player.X, some Player.O, some Player.O, some Player.O, some Player.X, some Player.X, some Player.O, none] Player.X 8 = 0 := by
  rw [moveScore_eq [some Player.X, some Player.X, some Player.O, some Player.O, some Player.O, some Player.X, some Player.X, some Player.O, none] Player.X 8 rfl rfl (by norm_num), show pCode Player.X = 1 from rfl,
    show enc [some Player.X, some Player.X, some Player.O, some Player.O, some Player.O, some Player.X, some Player.X, some Player.O, none] + 1 * 3 ^ 8 = 12145 by decide,
    show vT 12145 false 1 = 2 from by decide!]
  decide



theorem bm_0 : best_move [none, none, none, none, none, none, none, none, none] Player.X false none = 1 := by
  have hvm : valid_moves [none, none, none, none, none, none, none, none, none] = [0, 1, 2, 3, 4, 5, 6, 7, 8] := by decide
  have s0 : argStep (moveScore [none, none, none, none, none, none, none, none, none] Player.X) ((-2 : Int), 0) 0 = ((0 : Int), 0) := by
    simp only [argStep, sc_0_0]
    norm_num
  have s1 : argStep (moveScore [none, none, none, none, none, none, none, none, none] Player.X) ((0 : Int), 0) 1 = ((0 : Int), 0) := by
    simp only [argStep, sc_0_1]
    norm_num
  have s2 : argStep (moveScore [none, none, none, none, none, none, none, none, none] Player.X) ((0 : Int), 0) 2 = ((0 : Int), 0) := by
    simp only [argStep, sc_0_2]
    norm_num
  have s3 : argStep (moveScore [none, none, none, none, none, none, none, none, none] Player.X) ((0 : Int), 0) 3 = ((0 : Int), 0) := by
    simp only [argStep, sc_0_3]
    norm_num
  have s4 : argStep (moveScore [none, none, none, none, none, none, none, none, none] Player.X) ((0 : Int), 0) 4 = ((0 : Int), 0) := by
    simp only [argStep, sc_0_4]
    norm_num
  have s5 : argStep (moveScore [none, none, none, none, none, none, none, none, none] Player.X) ((0 : Int), 0) 5 = ((0 : Int), 0) := by
    simp only [argStep, sc_0_5]
    norm_num
  have s6 : argStep (moveScore [none, none, none, none, none, none, none, none, none] Player.X) ((0 : Int), 0) 6 = ((0 : Int), 0) := by
    simp only [argStep, sc_0_6]
    norm_num
  have s7 : argStep (moveScore [none, none, none, none, none, none, none, none, none] Player.X) ((0 : Int), 0) 7 = ((0 : Int), 0) := by
    simp only [argStep, sc_0_7]
    norm_num
  have s8 : argStep (moveScore [none, none, none, none, none, none, none, none, none] Player.X) ((0 : Int), 0) 8 = ((0 : Int), 0) := by
    simp only [argStep, sc_0_8]
    norm_num
  unfold best_move best_moveS
  rw [hvm]
  rw [if_neg (by decide)]
  dsimp only
  rw [List.foldl_cons, s0, List.foldl_cons, s1, List.foldl_cons, s2, List.foldl_cons, s3, List.foldl_cons, s4, List.foldl_cons, s5, List.foldl_cons, s6, List.foldl_cons, s7, List.foldl_cons, s8, List.foldl_nil]
  norm_num

theorem bm_1 : best_move [some Player.X, none, none, none, none, none, none, none, none] Player.O false none = 5 := by
  have hvm : valid_moves [some Player.X, none, none, none, none, none, none, none, none] = [1, 2, 3, 4, 5, 6, 7, 8] := by decide
  have s0 : argStep (moveScore [some Player.X, none, none, none, none, none, none, none, none] Player.O) ((-2 : Int), 1) 1 = ((-1 : Int), 1) := by
    simp only [argStep, sc_1_1]
    norm_num
  have s1 : argStep (moveScore [some Player.X, none, none, none, none, none, none, none, none] Player.O) ((-1 : Int), 1) 2 = ((-1 : Int), 1) := by
    simp only [argStep, sc_1_2]
    norm_num
  have s2 : argStep (moveScore [some Player.X, none, none, none, none, none, none, none, none] Player.O) ((-1 : Int), 1) 3 = ((-1 : Int), 1) := by
    simp only [argStep, sc_1_3]
    norm_num
  have s3 : argStep (moveScore [some Player.X, none, none, none, none, none, none, none, none] Player.O) ((-1 : Int), 1) 4 = ((0 : Int), 4) := by
    simp only [argStep, sc_1_4]
    norm_num
  have s4 : argStep (moveScore [some Player.X, none, none, none, none, none, none, none, none] Player.O) ((0 : Int), 4) 5 = ((0 : Int), 4) := by
    simp only [argStep, sc_1_5]
    norm_num
  have s5 : argStep (moveScore [some Player.X, none, none, none, none, none, none, none, none] Player.O) ((0 : Int), 4) 6 = ((0 : Int), 4) := by
    simp only [argStep, sc_1_6]
    norm_num
  have s6 : argStep (moveScore [some Player.X, none, none, none, none, none, none, none, none] Player.O) ((0 : Int), 4) 7 = ((0 : Int), 4) := by
    simp only [argStep, sc_1_7]
    norm_num
  have s7 : argStep (moveScore [some Player.X, none, none, none, none, none, none, none, none] Player.O) ((0 : Int), 4) 8 = ((0 : Int), 4) := by
    simp only [argStep, sc_1_8]
    norm_num
  unfold best_move best_moveS
  rw [hvm]
  rw [if_neg (by decide)]
  dsimp only
  rw [List.foldl_cons, s0, List.foldl_cons, s1, List.foldl_cons, s2, List.foldl_cons, s3, List.foldl_cons, s4, List.foldl_cons, s5, List.foldl_cons, s6, List.foldl_cons, s7, List.foldl_nil]
  norm_num

theorem bm_2 : best_move [some Player.X, none, none, none, some Player.O, none, none, none, none] Player.X false none = 2 := by
  have hvm : valid_moves [some Player.X, none, none, none, some Player.O, none, none, none, none] = [1, 2, 3, 5, 6, 7, 8] := by decide
  have s0 : argStep (moveScore [some Player.X, none, none, none, some Player.O, none, none, none, none] Player.X) ((-2 : Int), 1) 1 = ((0 : Int), 1) := by
    simp only [argStep, sc_2_1]
    norm_num
  have s1 : argStep (moveScore [some Player.X, none, none, none, some Player.O, none, none, none, none] Player.X) ((0 : Int), 1) 2 = ((0 : Int), 1) := by
    simp only [argStep, sc_2_2]
    norm_num
  have s2 : argStep (moveScore [some Player.X, none, none, none, some Player.O, none, none, none, none] Player.X) ((0 : Int), 1) 3 = ((0 : Int), 1) := by
    simp only [argStep, sc_2_3]
    norm_num
  have s3 : argStep (moveScore [some Player.X, none, none, none, some Player.O, none, none, none, none] Player.X) ((0 : Int), 1) 5 = ((0 : Int), 1) := by
    simp only [argStep, sc_2_5]
    norm_num
  have s4 : argStep (moveScore [some Player.X, none, none, none, some Player.O, none, none, none, none] Player.X) ((0 : Int), 1) 6 = ((0 : Int), 1) := by
    simp only [argStep, sc_2_6]
    norm_num
  have s5 : argStep (moveScore [some Player.X, none, none, none, some Player.O, none, none, none, none] Player.X) ((0 : Int), 1) 7 = ((0 : Int), 1) := by
    simp only [argStep, sc_2_7]
    norm_num
  have s6 : argStep (moveScore [some Player.X, none, none, none, some Player.O, none, none, none, none] Player.X) ((0 : Int), 1) 8 = ((0 : Int), 1) := by
    simp only [argStep, sc_2_8]
    norm_num
  unfold best_move best_moveS
  rw [hvm]
  rw [if_neg (by decide)]
  dsimp only
  rw [List.foldl_cons, s0, List.foldl_cons, s1, List.foldl_cons, s2, List.foldl_cons, s3, List.foldl_cons, s4, List.foldl_cons, s5, List.foldl_cons, s6, List.foldl_nil]
  norm_num

theorem bm_3 : best_move [some Player.X, some Player.X, none, none, some Player.O, none, none, none, none] Player.O false none = 3 := by
  have hvm : valid_moves [some Player.X, some Player.X, none, none, some Player.O, none, none, none, none] = [2, 3, 5, 6, 7, 8] := by decide
  have s0 : argStep (moveScore [some Player.X, some Player.X, none, none, some Player.O, none, none, none, none] Player.O) ((-2 : Int), 2) 2 = ((0 : Int), 2) := by
    simp only [argStep, sc_3_2]
    norm_num
  have s1 : argStep (moveScore [some Player.X, some Player.X, none, none, some Player.O, none, none, none, none] Player.O) ((0 : Int), 2) 3 = ((0 : Int), 2) := by
    simp only [argStep, sc_3_3]
    norm_num
  have s2 : argStep (moveScore [some Player.X, some Player.X, none, none, some Player.O, none, none, none, none] Player.O) ((0 : Int), 2) 5 = ((0 : Int), 2) := by
    simp only [argStep, sc_3_5]
    norm_num
  have s3 : argStep (moveScore [some Player.X, some Player.X, none, none, some Player.O, none, none, none, none] Player.O) ((0 : Int), 2) 6 = ((0 : Int), 2) := by
    simp only [argStep, sc_3_6]
    norm_num
  have s4 : argStep (moveScore [some Player.X, some Player.X, none, none, some Player.O, none, none, none, none] Player.O) ((0 : Int), 2) 7 = ((0 : Int), 2) := by
    simp only [argStep, sc_3_7]
    norm_num
  have s5 : argStep (moveScore [some Player.X, some Player.X, none, none, some Player.O, none, none, none, none] Player.O) ((0 : Int), 2) 8 = ((0 : Int), 2) := by
    simp only [argStep, sc_3_8]
    norm_num
  unfold best_move best_moveS
  rw [hvm]
  rw [if_neg (by decide)]
  dsimp only
  rw [List.foldl_cons, s0, List.foldl_cons, s1, List.foldl_cons, s2, List.foldl_cons, s3, List.foldl_cons, s4, List.foldl_cons, s5, List.foldl_nil]
  norm_num

theorem bm_4 : best_move [some Player.X, some Player.X, some Player.O, none, some Player.O, none, none, none, none] Player.X false none = 7 := by
  have hvm : valid_moves [some Player.X, some Player.X, some Player.O, none, some Player.O, none, none, none, none] = [3, 5, 6, 7, 8] := by decide
  have s0 : argStep (moveScore [some Player.X, some Player.X, some Player.O, none, some Player.O, none, none, none, none] Player.X) ((-2 : Int), 3) 3 = ((-1 : Int), 3) := by
    simp only [argStep, sc_4_3]
    norm_num
  have s1 : argStep (moveScore [some Player.X, some Player.X, some Player.O, none, some Player.O, none, none, none, none] Player.X) ((-1 : Int), 3) 5 = ((-1 : Int), 3) := by
    simp only [argStep, sc_4_5]
    norm_num
  have s2 : argStep (moveScore [some Player.X, some Player.X, some Player.O, none, some Player.O, none, none, none, none] Player.X) ((-1 : Int), 3) 6 = ((0 : Int), 6) := by
    simp only [argStep, sc_4_6]
    norm_num
  have s3 : argStep (moveScore [some Player.X, some Player.X, some Player.O, none, some Player.O, none, none, none, none] Player.X) ((0 : Int), 6) 7 = ((0 : Int), 6) := by
    simp only [argStep, sc_4_7]
    norm_num
  have s4 : argStep (moveScore [some Player.X, some Player.X, some Player.O, none, some Player.O, none, none, none, none] Player.X) ((0 : Int), 6) 8 = ((0 : Int), 6) := by
    simp only [argStep, sc_4_8]
    norm_num
  unfold best_move best_moveS
  rw [hvm]
  rw [if_neg (by decide)]
  dsimp only
  rw [List.foldl_cons, s0, List.foldl_cons, s1, List.foldl_cons, s2, List.foldl_cons, s3, List.foldl_cons, s4, List.foldl_nil]
  norm_num

theorem bm_5 : best_move [some Player.X, some Player.X, some Player.O, none, some Player.O, none, some Player.X, none, none] Player.O false none = 4 := by
  have hvm : valid_moves [some Player.X, some Player.X, some Player.O, none, some Player.O, none, some Player.X, none, none] = [3, 5, 7, 8] := by decide
  have s0 : argStep (moveScore [some Player.X, some Player.X, some Player.O, none, some Player.O, none, some Player.X, none, none] Player.O) ((-2 : Int), 3) 3 = ((0 : Int), 3) := by
    simp only [argStep, sc_5_3]
    norm_num
  have s1 : argStep (moveScore [some Player.X, some Player.X, some Player.O, none, some Player.O, none, some Player.X, none, none] Player.O) ((0 : Int), 3) 5 = ((0 : Int), 3) := by
    simp only [argStep, sc_5_5]
    norm_num
  have s2 : argStep (moveScore [some Player.X, some Player.X, some Player.O, none, some Player.O, none, some Player.X, none, none] Player.O) ((0 : Int), 3) 7 = ((0 : Int), 3) := by
    simp only [argStep, sc_5_7]
    norm_num
  have s3 : argStep (moveScore [some Player.X, some Player.X, some Player.O, none, some Player.O, none, some Player.X, none, none] Player.O) ((0 : Int), 3) 8 = ((0 : Int), 3) := by
    simp only [argStep, sc_5_8]
    norm_num
  unfold best_move best_moveS
  rw [hvm]
  rw [if_neg (by decide)]
  dsimp only
  rw [List.foldl_cons, s0, List.foldl_cons, s1, List.foldl_cons, s2, List.foldl_cons, s3, List.foldl_nil]
  norm_num

theorem bm_6 : best_move [some Player.X, some Player.X, some Player.O, some Player.O, some Player.O, none, some Player.X, none, none] Player.X false none = 6 := by
  have hvm : valid_moves [some Player.X, some Player.X, some Player.O, some Player.O, some Player.O, none, some Player.X, none, none] = [5, 7, 8] := by decide
  have s0 : argStep (moveScore [some Player.X, some Player.X, some Player.O, some Player.O, some Player.O, none, some Player.X, none, none] Player.X) ((-2 : Int), 5) 5 = ((0 : Int), 5) := by
    simp only [argStep, sc_6_5]
    norm_num
  have s1 : argStep (moveScore [some Player.X, some Player.X, some Player.O, some Player.O, some Player.O, none, some Player.X, none, none] Player.X) ((0 : Int), 5) 7 = ((0 : Int), 5) := by
    simp only [argStep, sc_6_7]
    norm_num
  have s2 : argStep (moveScore [some Player.X, some Player.X, some Player.O, some Player.O, some Player.O, none, some Player.X, none, none] Player.X) ((0 : Int), 5) 8 = ((0 : Int), 5) := by
    simp only [argStep, sc_6_8]
    norm_num
  unfold best_move best_moveS
  rw [hvm]
  rw [if_neg (by decide)]
  dsimp only
  rw [List.foldl_cons, s0, List.foldl_cons, s1, List.foldl_cons, s2, List.foldl_nil]
  norm_num

theorem bm_7 : best_move [some Player.X, some Player.X, some Player.O, some Player.O, some Player.O, some Player.X, some Player.X, none, none] Player.O false none = 8 := by
  have hvm : valid_moves [some Player.X, some Player.X, some Player.O, some Player.O, some Player.O, some Player.X, some Player.X, none, none] = [7, 8] := by decide
  have s0 : argStep (moveScore [some Player.X, some Player.X, some Player.O, some Player.O, some Player.O, some Player.X, some Player.X, none, none] Player.O) ((-2 : Int), 7) 7 = ((0 : Int), 7) := by
    simp only [argStep, sc_7_7]
    norm_num
  have s1 : argStep (moveScore [some Player.X, some Player.X, some Player.O, some Player.O, some Player.O, some Player.X, some Player.X, none, none] Player.O) ((0 : Int), 7) 8 = ((0 : Int), 7) := by
    simp only [argStep, sc_7_8]
    norm_num
  unfold best_move best_moveS
  rw [hvm]
  rw [if_neg (by decide)]
  dsimp only
  rw [List.foldl_cons, s0, List.foldl_cons, s1, List.foldl_nil]
  norm_num

theorem bm_8 : best_move [some Player.X, some Player.X, some Player.O, some Player.O, some Player.O, some Player.X, some Player.X, some Player.O, none] Player.X false none = 9 := by
  have hvm : valid_moves [some Player.X, some Player.X, some Player.O, some Player.O, some Player.O, some Player.X, some Player.X, some Player.O, none] = [8] := by decide
  have s0 : argStep (moveScore [some Player.X, some Player.X, some Player.O, some Player.O, some Player.O, some Player.X, some Player.X, some Player.O, none] Player.X) ((-2 : Int), 8) 8 = ((0 : Int), 8) := by
    simp only [argStep, sc_8_8]
    norm_num
  unfold best_move best_moveS
  rw [hvm]
  rw [if_neg (by decide)]
  dsimp only
  rw [List.foldl_cons, s0, List.foldl_nil]
  norm_num

/-- The full deterministic self-play trace of `best_move` against itself. -/
theorem playTrace_eval :
    playTrace 9 (List.replicate 9 none) Player.X =
    [[none, none, none, none, none, none, none, none, none],
     [some Player.X, none, none, none, none, none, none, none, none],
     [some Player.X, none, none, none, some Player.O, none, none, none, none],
     [some Player.X, some Player.X, none, none, some Player.O, none, none, none, none],
     [some Player.X, some Player.X, some Player.O, none, some Player.O, none, none, none, none],
     [some Player.X, some Player.X, some Player.O, none, some Player.O, none, some Player.X, none, none],
     [some Player.X, some Player.X, some Player.O, some Player.O, some Player.O, none, some Player.X, none, none],
     [some Player.X, some Player.X, some Player.O, some Player.O, some Player.O, some Player.X, some Player.X, none, none],
     [some Player.X, some Player.X, some Player.O, some Player.O, some Player.O, some Player.X, some Player.X, some Player.O, none],
     [some Player.X, some Player.X, some Player.O, some Player.O, some Player.O, some Player.X, some Player.X, some Player.O, some Player.X]] := by
  have h0 : (List.replicate 9 (none : Cell)) = [none, none, none, none, none, none, none, none, none] := rfl
  have t0 : playTrace 9 [none, none, none, none, none, none, none, none, none] Player.X = [none, none, none, none, none, none, none, none, none] :: playTrace 8 [some Player.X, none, none, none, none, none, none, none, none] Player.O := by
    rw [playTrace, bm_0]
    norm_num [List.set, opponent]
  have t1 : playTrace 8 [some Player.X, none, none, none, none, none, none, none, none] Player.O = [some Player.X, none, none, none, none, none, none, none, none] :: playTrace 7 [some Player.X, none, none, none, some Player.O, none, none, none, none] Player.X := by
    rw [playTrace, bm_1]
    norm_num [List.set, opponent]
  have t2 : playTrace 7 [some Player.X, none, none, none, some Player.O, none, none, none, none] Player.X = [some Player.X, none, none, none, some Player.O, none, none, none, none] :: playTrace 6 [some Player.X, some Player.X, none, none, some Player.O, none, none, none, none] Player.O := by
    rw [playTrace, bm_2]
    norm_num [List.set, opponent]
  have t3 : playTrace 6 [some Player.X, some Player.X, none, none, some Player.O, none, none, none, none] Player.O = [some Player.X, some Player.X, none, none, some Player.O, none, none, none, none] :: playTrace 5 [some Player.X, some Player.X, some Player.O, none, some Player.O, none, none, none, none] Player.X := by
    rw [playTrace, bm_3]
    norm_num [List.set, opponent]
  have t4 : playTrace 5 [some Player.X, some Player.X, some Player.O, none, some Player.O, none, none, none, none] Player.X = [some Player.X, some Player.X, some Player.O, none, some Player.O, none, none, none, none] :: playTrace 4 [some Player.X, some Player.X, some Player.O, none, some Player.O, none, some Player.X, none, none] Player.O := by
    rw [playTrace, bm_4]
    norm_num [List.set, opponent]
  have t5 : playTrace 4 [some Player.X, some Player.X, some Player.O, none, some Player.O, none, some Player.X, none, none] Player.O = [some Player.X, some Player.X, some Player.O, none, some Player.O, none, some Player.X, none, none] :: playTrace 3 [some Player.X, some Player.X, some Player.O, some Player.O, some Player.O, none, some Player.X, none, none] Player.X := by
    rw [playTrace, bm_5]
    norm_num [List.set, opponent]
  have t6 : playTrace 3 [some Player.X, some Player.X, some Player.O, some Player.O, some Player.O, none, some Player.X, none, none] Player.X = [some Player.X, some Player.X, some Player.O, some Player.O, some Player.O, none, some Player.X, none, none] :: playTrace 2 [some Player.X, some Player.X, some Player.O, some Player.O, some Player.O, some Player.X, some Player.X, none, none] Player.O := by
    rw [playTrace, bm_6]
    norm_num [List.set, opponent]
  have t7 : playTrace 2 [some Player.X, some Player.X, some Player.O, some Player.O, some Player.O, some Player.X, some Player.X, none, none] Player.O = [some Player.X, some Player.X, some Player.O, some Player.O, some Player.O, some Player.X, some Player.X, none, none] :: playTrace 1 [some Player.X, some Player.X, some Player.O, some Player.O, some Player.O, some Player.X, some Player.X, some Player.O, none] Player.X := by
    rw [playTrace, bm_7]
    norm_num [List.set, opponent]
  have t8 : playTrace 1 [some Player.X, some Player.X, some Player.O, some Player.O, some Player.O, some Player.X, some Player.X, some Player.O, none] Player.X = [some Player.X, some Player.X, some Player.O, some Player.O, some Player.O, some Player.X, some Player.X, some Player.O, none] :: playTrace 0 [some Player.X, some Player.X, some Player.O, some Player.O, some Player.O, some Player.X, some Player.X, some Player.O, some Player.X] Player.O := by
    conv_lhs => rw [playTrace]
    rw [bm_8]
    norm_num [List.set, opponent, playTrace]
  rw [h0, t0, t1, t2, t3, t4, t5, t6, t7, t8]
  rfl

/-!
## Claim theorems for the search engine
-/

theorem valid_moves_mem (b : Board) (m : Nat) :
    m ∈ valid_moves b ↔ m < b.length ∧ b.getD m none = none := by
  unfold valid_moves
  simp [List.mem_filter, List.mem_range, Option.isNone_iff_eq_none]

theorem argStep_no_improve (f : Nat → Int) :
    ∀ (l : List Nat) (acc : Int × Nat), (∀ x ∈ l, f x ≤ acc.1) →
    l.foldl (argStep f) acc = acc := by
  intro l
  induction l with
  | nil => intro acc h; rfl
  | cons x t ih =>
    intro acc h
    rw [List.foldl_cons]
    have hx : ¬ (f x > acc.1) := not_lt.mpr (h x (List.mem_cons_self x t))
    have hstep : argStep f acc x = acc := by
      unfold argStep
      rw [if_neg hx]
    rw [hstep]
    exact ih acc (fun y hy => h y (List.mem_cons_of_mem x hy))

theorem argStep_lt_bound (f : Nat → Int) (M : Int) :
    ∀ (l : List Nat) (acc : Int × Nat), acc.1 < M → (∀ x ∈ l, f x < M) →
    (l.foldl (argStep f) acc).1 < M := by
  intro l
  induction l with
  | nil => intro acc h _; exact h
  | cons x t ih =>
    intro acc h hl
    rw [List.foldl_cons]
    apply ih
    · unfold argStep
      by_cases hx : f x > acc.1
      · rw [if_pos hx]; exact hl x (List.mem_cons_self x t)
      · rw [if_neg hx]; exact h
    · exact fun y hy => hl y (List.mem_cons_of_mem x hy)

/-- C2 (amended): on a 9-cell board where placing `p` at empty cell `w`
completes three in a row, `best_move` returns position `w + 1` provided no
valid move of smaller index also has a forced-win minimax score; in
general the first valid move attaining the maximal score wins the scan. -/
theorem best_move_first_forced_win (b : Board) (p : Player) (w : Nat) (wnr : Option Player)
    (hb : b.length = 9) (hw9 : w < 9) (hempty : b.getD w none = none)
    (hwin : check_winner (b.set w (some p)) = some p)
    (hfirst : ∀ m ∈ valid_moves b, m < w → moveScore b p m < 1) :
    best_move b p false wnr = (w : Int) + 1 := by
  have hsw : moveScore b p w = 1 := by
    unfold moveScore
    rw [List.length_set, hb]
    show (minimaxS (8 + 1) (b.set w (some p)) false p).1 = 1
    rw [minimaxS, hwin]
    simp
  have hle : ∀ m ∈ valid_moves b, moveScore b p m ≤ 1 := by
    intro m hm
    obtain ⟨hm1, hm2⟩ := (valid_moves_mem b m).1 hm
    rw [hb] at hm1
    rw [moveScore_eq b p m hb hm2 hm1]
    have h4 : vT (enc b + pCode p * 3 ^ m) false (pCode p) < 4 := by
      unfold vT
      exact Nat.mod_lt _ (by norm_num)
    omega
  have hwv : w ∈ valid_moves b := (valid_moves_mem b w).2 ⟨by rw [hb]; exact hw9, hempty⟩
  obtain ⟨l1, l2, hsplit⟩ := List.append_of_mem hwv
  have hpw : (valid_moves b).Pairwise (· < ·) := by
    unfold valid_moves
    exact List.Pairwise.sublist (List.filter_sublist _) (List.pairwise_lt_range _)
  have hl1w : ∀ y ∈ l1, y < w := by
    rw [hsplit] at hpw
    have h2 := (List.pairwise_append.1 hpw).2.2
    intro y hy
    exact h2 y hy w (List.mem_cons_self _ _)
  cases hvm : valid_moves b with
  | nil => rw [hvm] at hwv; cases hwv
  | cons first rest =>
    unfold best_move best_moveS
    rw [hvm]
    rw [if_neg (by decide)]
    dsimp only
    have hsplit2 : first :: rest = l1 ++ w :: l2 := by rw [← hvm, hsplit]
    rw [hsplit2, List.foldl_append, List.foldl_cons]
    have ha1 : ((l1.foldl (argStep (moveScore b p)) (-2, first)).1) < 1 := by
      apply argStep_lt_bound
      · norm_num
      · intro y hy
        exact hfirst y (by rw [hsplit]; exact List.mem_append_left _ hy) (hl1w y hy)
    have hstep : argStep (moveScore b p) (l1.foldl (argStep (moveScore b p)) (-2, first)) w
        = (1, w) := by
      simp only [argStep]
      rw [if_pos (show moveScore b p w > (l1.foldl (argStep (moveScore b p)) (-2, first)).1 by
        rw [hsw]; exact ha1), hsw]
    rw [hstep]
    rw [argStep_no_improve (moveScore b p) l2 (1, w) (fun y hy =>
      hle y (by rw [hsplit]; exact List.mem_append_right _ (List.mem_cons_of_mem _ hy)))]

/-- Witness for the amended C2 on a concrete board: X at cells 0 and 1,
O at cells 3 and 4; the winning cell 2 is the first valid move. -/
theorem best_move_first_forced_win_witness :
    best_move [some Player.X, some Player.X, none, some Player.O, some Player.O,
      none, none, none, none] Player.X false none = (2 : Int) + 1 :=
  best_move_first_forced_win
    [some Player.X, some Player.X, none, some Player.O, some Player.O,
      none, none, none, none] Player.X 2 none rfl (by norm_num) rfl (by decide) (by decide)

theorem sc_c2_0 : moveScore [none, some Player.O, some Player.O, none, none, none, some Player.X, some Player.X, none] Player.X 0 = 1 := by
  rw [moveScore_eq [none, some Player.O, some Player.O, none, none, none, some Player.X, some Player.X, none] Player.X 0 rfl rfl (by norm_num), show pCode Player.X = 1 from rfl,
    show enc [none, some Player.O, some Player.O, none, none, none, some Player.X, some Player.X, none] + 1 * 3 ^ 0 = 2941 by decide,
    show vT 2941 false 1 = 3 from by decide!]
  decide

theorem sc_c2_3 : moveScore [none, some Player.O, some Player.O, none, none, none, some Player.X, some Player.X, none] Player.X 3 = -1 := by
  rw [moveScore_eq [none, some Player.O, some Player.O, none, none, none, some Player.X, some Player.X, none] Player.X 3 rfl rfl (by norm_num), show pCode Player.X = 1 from rfl,
    show enc [none, some Player.O, some Player.O, none, none, none, some Player.X, some Player.X, none] + 1 * 3 ^ 3 = 2967 by decide,
    show vT 2967 false 1 = 1 from by decide!]
  decide

theorem sc_c2_4 : moveScore [none, some Player.O, some Player.O, none, none, none, some Player.X, some Player.X, none] Player.X 4 = -1 := by
  rw [moveScore_eq [none, some Player.O, some Player.O, none, none, none, some Player.X, some Player.X, none] Player.X 4 rfl rfl (by norm_num), show pCode Player.X = 1 from rfl,
    show enc [none, some Player.O, some Player.O, none, none, none, some Player.X, some Player.X, none] + 1 * 3 ^ 4 = 3021 by decide,
    show vT 3021 false 1 = 1 from by decide!]
  decide

theorem sc_c2_5 : moveScore [none, some Player.O, some Player.O, none, none, none, some Player.X, some Player.X, none] Player.X 5 = -1 := by
  rw [moveScore_eq [none, some Player.O, some Player.O, none, none, none, some Player.X, some Player.X, none] Player.X 5 rfl rfl (by norm_num), show pCode Player.X = 1 from rfl,
    show enc [none, some Player.O, some Player.O, none, none, none, some Player.X, some Player.X, none] + 1 * 3 ^ 5 = 3183 by decide,
    show vT 3183 false 1 = 1 from by decide!]
  decide

theorem sc_c2_8 : moveScore [none, some Player.O, some Player.O, none, none, none, some Player.X, some Player.X, none] Player.X 8 = 1 := by
  rw [moveScore_eq [none, some Player.O, some Player.O, none, none, none, some Player.X, some Player.X, none] Player.X 8 rfl rfl (by norm_num), show pCode Player.X = 1 from rfl,
    show enc [none, some Player.O, some Player.O, none, none, none, some Player.X, some Player.X, none] + 1 * 3 ^ 8 = 9501 by decide,
    show vT 9501 false 1 = 3 from by decide!]
  decide

theorem bm_c2 : best_move [none, some Player.O, some Player.O, none, none, none, some Player.X, some Player.X, none] Player.X false none = 1 := by
  have hvm : valid_moves [none, some Player.O, some Player.O, none, none, none, some Player.X, some Player.X, none] = [0, 3, 4, 5, 8] := by decide
  have s0 : argStep (moveScore [none, some Player.O, some Player.O, none, none, none, some Player.X, some Player.X, none] Player.X) ((-2 : Int), 0) 0 = ((1 : Int), 0) := by
    simp only [argStep, sc_c2_0]
    norm_num
  have s3 : argStep (moveScore [none, some Player.O, some Player.O, none, none, none, some Player.X, some Player.X, none] Player.X) ((1 : Int), 0) 3 = ((1 : Int), 0) := by
    simp only [argStep, sc_c2_3]
    norm_num
  have s4 : argStep (moveScore [none, some Player.O, some Player.O, none, none, none, some Player.X, some Player.X, none] Player.X) ((1 : Int), 0) 4 = ((1 : Int), 0) := by
    simp only [argStep, sc_c2_4]
    norm_num
  have s5 : argStep (moveScore [none, some Player.O, some Player.O, none, none, none, some Player.X, some Player.X, none] Player.X) ((1 : Int), 0) 5 = ((1 : Int), 0) := by
    simp only [argStep, sc_c2_5]
    norm_num
  have s8 : argStep (moveScore [none, some Player.O, some Player.O, none, none, none, some Player.X, some Player.X, none] Player.X) ((1 : Int), 0) 8 = ((1 : Int), 0) := by
    simp only [argStep, sc_c2_8]
    norm_num
  unfold best_move best_moveS
  rw [hvm]
  rw [if_neg (by decide)]
  dsimp only
  rw [List.foldl_cons, s0, List.foldl_cons, s3, List.foldl_cons, s4, List.foldl_cons, s5, List.foldl_cons, s8, List.foldl_nil]
  norm_num

/-- C2 counterexample: on this reachable 9-cell board the unique empty
cell whose occupation by X completes three in a row is index 8 (the
bottom-right corner, 1-based position 9), yet `best_move` returns 1: the
move at index 0 also carries minimax score +1 (it creates a double
threat), and the scan keeps the first maximal move. -/
theorem best_move_immediate_win_counterexample :
    (∀ m ∈ valid_moves [none, some Player.O, some Player.O, none, none, none, some Player.X, some Player.X, none],
      (check_winner ([none, some Player.O, some Player.O, none, none, none, some Player.X, some Player.X, none].set m (some Player.X)) = some Player.X ↔ m = 8)) ∧
    best_move [none, some Player.O, some Player.O, none, none, none, some Player.X, some Player.X, none] Player.X false none = 1 ∧
    (1 : Int) ≠ 8 + 1 :=
  ⟨by decide, bm_c2, by decide⟩

/-- C1: in the self-play game from the empty board (X first, both sides
choosing with `best_move` and applying the returned 1-based position),
no reached board has a winner and the final board is completely full:
the game ends in a tie. -/
theorem selfplay_game_is_tie :
    (∀ b ∈ playTrace 9 (List.replicate 9 none) Player.X, check_winner b = none) ∧
    ((playTrace 9 (List.replicate 9 none) Player.X).getLastD []).contains none = false := by
  rw [playTrace_eval]
  exact ⟨by decide, by decide⟩

/-- C3: on a 9-cell board `play_move` returns the invalid-move value -1
exactly when the position is below 1, above 9, or aims at an occupied
cell; in every other case it returns the position unchanged. -/
theorem play_move_spec (board : Board) (position : Int) (player : Player)
    (hb : board.length = 9) :
    (play_move board position player = -1 ↔
      position < 1 ∨ position > 9 ∨ (board.getD (position - 1).toNat none).isSome = true) ∧
    (¬(position < 1 ∨ position > 9 ∨ (board.getD (position - 1).toNat none).isSome = true) →
      play_move board position player = position) := by
  unfold play_move
  by_cases h1 : position < 1 ∨ position > 9
  · rw [if_pos h1]
    have hc : position < 1 ∨ position > 9 ∨ (board.getD (position - 1).toNat none).isSome = true := by
      rcases h1 with h | h
      · exact Or.inl h
      · exact Or.inr (Or.inl h)
    exact ⟨⟨fun _ => hc, fun _ => rfl⟩, fun hn => absurd hc hn⟩
  · rw [if_neg h1]
    push_neg at h1
    by_cases h2 : (board.getD (position - 1).toNat none).isSome = true
    · rw [if_pos h2]
      exact ⟨⟨fun _ => Or.inr (Or.inr h2), fun _ => rfl⟩,
        fun hn => absurd (Or.inr (Or.inr h2)) hn⟩
    · rw [if_neg h2]
      refine ⟨⟨fun h => ?_, fun h => ?_⟩, fun _ => rfl⟩
      · exfalso
        omega
      · rcases h with h | h | h
        · omega
        · omega
        · exact absurd h h2

/-- Witness for C3 at concrete inputs: on the empty board position 5 is
played back unchanged and position 10 is rejected. -/
theorem play_move_spec_witness :
    play_move (List.replicate 9 none) 5 Player.X = 5 ∧
    play_move (List.replicate 9 none) 10 Player.X = -1 :=
  ⟨(play_move_spec (List.replicate 9 none) 5 Player.X rfl).2 (by decide),
   ((play_move_spec (List.replicate 9 none) 10 Player.X rfl).1).mpr (by decide)⟩

/-- C4: `best_move` and `random_move` return -1 whenever `game_over` is
set (for every board), and whenever the board has no empty cell (for
either value of `game_over`). -/
theorem no_valid_move_returns_neg_one (board : Board) (player : Player)
    (winner : Option Player) (pick : Nat) :
    (best_move board player true winner = -1 ∧
      random_move board player true winner pick = -1) ∧
    ((∀ c ∈ board, c ≠ none) → ∀ go : Bool,
      best_move board player go winner = -1 ∧
      random_move board player go winner pick = -1) := by
  refine ⟨⟨rfl, rfl⟩, fun hfull go => ?_⟩
  have hvm : valid_moves board = [] := by
    unfold valid_moves
    rw [List.filter_eq_nil_iff]
    intro i hi
    have hilt : i < board.length := List.mem_range.mp hi
    have hne := hfull (board[i]) (List.getElem_mem hilt)
    simp only [List.getD_eq_getElem?_getD, List.getElem?_eq_getElem hilt, Option.getD_some,
      Option.isNone_iff_eq_none]
    exact hne
  cases go with
  | true => exact ⟨rfl, rfl⟩
  | false =>
    constructor
    · show (best_moveS board player false winner).1 = -1
      unfold best_moveS
      rw [if_neg (by decide), hvm]
    · unfold random_move
      rw [if_neg (by decide), hvm]

/-- C5: `_check_winner` scans exactly the 8 fixed triples (rows, columns,
diagonals) in order, returning the mark of the first aligned triple, else
`none`; with the three concrete cases of the claim. -/
theorem check_winner_spec :
    winning_combinations =
      [(0, 1, 2), (3, 4, 5), (6, 7, 8), (0, 3, 6), (1, 4, 7), (2, 5, 8), (0, 4, 8), (2, 4, 6)] ∧
    (∀ board : Board, check_winner board =
      winning_combinations.findSome? (fun t => triple_winner board t.1 t.2.1 t.2.2)) ∧
    check_winner [some Player.X, some Player.X, some Player.X, none, none, none, none, none, none] = some Player.X ∧
    check_winner (List.replicate 9 none) = none ∧
    check_winner [some Player.X, some Player.O, some Player.X, some Player.O, some Player.X, some Player.O, some Player.O, some Player.X, some Player.O] = none := by
  have haux : ∀ (board : Board) (l : List (Nat × Nat × Nat)),
      check_winner_aux board l = l.findSome? (fun t => triple_winner board t.1 t.2.1 t.2.2) := by
    intro board l
    induction l with
    | nil => rfl
    | cons t rest ih =>
      obtain ⟨a, b, c⟩ := t
      rw [List.findSome?_cons]
      show (match triple_winner board a b c with
        | some p => some p
        | none => check_winner_aux board rest) = _
      cases triple_winner board a b c with
      | some p => rfl
      | none => simpa using ih
  exact ⟨rfl, fun board => haux board winning_combinations, by decide, by decide, by decide⟩

/-- C6: `execute_tool` is total (it always returns a `CallToolResult`); an
unknown tool name yields an error result carrying `Unknown tool: NAME`, an
exception raised by the dispatched tool body (here: a missing required
argument, a `KeyError`) is caught and yields an error result carrying
`Error executing tool NAME: ...`, and a result the body returns is passed
through unchanged. -/
theorem execute_tool_spec (pick : Nat) (name : String) (args : ToolArguments) :
    (name ∉ ["new_game", "best_move", "random_move", "play_move"] →
      execute_tool pick name args = { content := [{ type := "text", text := "Unknown tool: " ++ name }], isError := true }) ∧
    (∀ e, execute_tool_core pick name args = .error e →
      execute_tool pick name args = { content := [{ type := "text", text := "Error executing tool " ++ name ++ ": " ++ e }], isError := true }) ∧
    (∀ r, execute_tool_core pick name args = .ok r → execute_tool pick name args = r) := by
  refine ⟨?_, ?_, ?_⟩
  · intro hname
    simp only [List.mem_cons, List.not_mem_nil, or_false, not_or] at hname
    obtain ⟨h1, h2, h3, h4⟩ := hname
    unfold execute_tool execute_tool_core
    rw [if_neg h1, if_neg h2, if_neg h3, if_neg h4]
  · intro e he
    unfold execute_tool
    rw [he]
  · intro r hr
    unfold execute_tool
    rw [hr]

/-- Witness for C6: an unknown tool name and a missing required argument
both produce error results rather than exceptions. -/
theorem execute_tool_spec_witness :
    execute_tool 0 "bogus" {} = { content := [{ type := "text", text := "Unknown tool: " ++ "bogus" }], isError := true } ∧
    execute_tool 0 "best_move" {} = { content := [{ type := "text", text := "Error executing tool " ++ "best_move" ++ ": " ++ keyErrorText "board" }], isError := true } :=
  ⟨(execute_tool_spec 0 "bogus" {}).1 (by decide),
   (execute_tool_spec 0 "best_move" {}).2.1 (keyErrorText "board") rfl⟩

/-- C7 counterexample: an initialize request whose `protocolVersion`
parameter is the unsupported string `bogus` is not rejected: a session is
created recording `bogus` and the normal response is returned. -/
theorem initialize_unsupported_version_counterexample :
    "bogus" ∉ SUPPORTED_PROTOCOL_VERSIONS ∧
    (handle_initialize_request [] { protocolVersion := some "bogus" }).1 =
      [{ client_info := none, capabilities := none, protocol_version := "bogus" }] ∧
    (handle_initialize_request [] { protocolVersion := some "bogus" }).2 =
      { protocolVersion := MCP_PROTOCOL_VERSION, serverName := MCP_SERVER_NAME, serverVersion := MCP_SERVER_VERSION } :=
  ⟨by decide, rfl, rfl⟩

/-- C7 (amended): version checking happens only on the transport header,
which is rejected exactly when present, non-empty and unsupported; the
`protocolVersion` parameter of initialize itself is never validated: the
handler always appends one session recording the parameter (defaulting to
`MCP_PROTOCOL_VERSION`) and answers with the server identity. -/
theorem initialize_records_param (sessions : List Session) (params : InitializeParams)
    (header : Option String)
    (hsup : ∀ v, header = some v → v ∈ SUPPORTED_PROTOCOL_VERSIONS ∨ v = "") :
    headerVersionRejected header = false ∧
    (handle_initialize_request sessions params).1 =
      sessions ++ [{ client_info := params.clientInfo, capabilities := params.capabilities,
                     protocol_version := params.protocolVersion.getD MCP_PROTOCOL_VERSION }] ∧
    (handle_initialize_request sessions params).2 =
      { protocolVersion := MCP_PROTOCOL_VERSION, serverName := MCP_SERVER_NAME, serverVersion := MCP_SERVER_VERSION } := by
  refine ⟨?_, rfl, rfl⟩
  match header with
  | none => rfl
  | some v =>
    rcases hsup v rfl with h | h
    · simp only [SUPPORTED_PROTOCOL_VERSIONS, List.mem_cons, List.not_mem_nil, or_false] at h
      rcases h with rfl | rfl | rfl <;> decide
    · rw [h]
      decide

/-- Witness for the amended C7: a request carrying the supported header
version 2025-06-18 and the same parameter passes the header check and
creates one session recording 2025-06-18. -/
theorem initialize_records_param_witness :
    headerVersionRejected (some "2025-06-18") = false ∧
    (handle_initialize_request [] { protocolVersion := some "2025-06-18" }).1 =
      [{ client_info := none, capabilities := none, protocol_version := "2025-06-18" }] ∧
    (handle_initialize_request [] { protocolVersion := some "2025-06-18" }).2 =
      { protocolVersion := MCP_PROTOCOL_VERSION, serverName := MCP_SERVER_NAME, serverVersion := MCP_SERVER_VERSION } := by
  have h := initialize_records_param [] { protocolVersion := some "2025-06-18" }
    (some "2025-06-18") (fun v hv => Or.inl (by
      rw [show v = "2025-06-18" from (Option.some.inj hv).symm]
      decide))
  exact ⟨h.1, h.2.1.trans (by decide), h.2.2⟩

/-- C8: `get_prompt_content` fails with the wrapped `Unknown prompt` error
on every name outside the catalog, and `game_analyzer` without
`move_history` fails with the wrapped `Move history is required` error;
but `learning_path` without `current_level` does NOT fail, although the
catalog declares `current_level` as its required argument: the builder
silently substitutes `beginner`. -/
theorem get_prompt_content_required_args :
    get_prompts.map (fun p => p.name) = ["strategy_coach", "game_analyzer", "learning_path"] ∧
    (∀ name args, name ∉ get_prompts.map (fun p => p.name) →
      get_prompt_content name args = .error ("Error getting prompt " ++ name ++ ": " ++ ("Unknown prompt: " ++ name))) ∧
    get_prompt_content "game_analyzer" {} =
      .error ("Error getting prompt " ++ "game_analyzer" ++ ": " ++ "Move history is required for game analysis") ∧
    (get_prompts.any (fun p => p.name == "learning_path" &&
      p.arguments.any (fun a => a.name == "current_level" && a.required))) = true ∧
    (get_prompt_content "learning_path" {}).isOk = true := by
  refine ⟨rfl, ?_, rfl, by decide, rfl⟩
  intro name args h
  rw [show get_prompts.map (fun p => p.name) = ["strategy_coach", "game_analyzer", "learning_path"] from rfl] at h
  simp only [List.mem_cons, List.not_mem_nil, or_false, not_or] at h
  obtain ⟨h1, h2, h3⟩ := h
  have hcore : get_prompt_content_core name args = .error ("Unknown prompt: " ++ name) := by
    unfold get_prompt_content_core
    rw [if_neg h1, if_neg h2, if_neg h3]
  unfold get_prompt_content
  rw [hcore]

/-- C9: the board handed back by the search is the caller's board: the
minimax recursion reverts every hypothetical mark, and `best_move` only
reads the board. -/
theorem best_move_leaves_board_unchanged (board : Board) (player : Player)
    (game_over : Bool) (winner : Option Player) (fuel : Nat) (im : Bool) :
    (minimaxS fuel board im player).2 = board ∧
    (best_moveS board player game_over winner).2 = board := by
  refine ⟨minimaxS_restore fuel board im player, ?_⟩
  unfold best_moveS
  by_cases hgo : game_over = true
  · rw [if_pos hgo]
  · rw [if_neg hgo]
    rcases hvm : valid_moves board with _ | ⟨first, rest⟩
    · rfl
    · rfl

/-- C10: the `winner` argument influences neither `best_move` nor
`random_move`: both functions ignore it for every board, player,
game_over flag and randomness choice. -/
theorem winner_has_no_influence (board : Board) (player : Player) (game_over : Bool)
    (w1 w2 : Option Player) (pick : Nat) :
    best_move board player game_over w1 = best_move board player game_over w2 ∧
    random_move board player game_over w1 pick = random_move board player game_over w2 pick :=
  ⟨rfl, rfl⟩

end ChatTTT
